import Mathlib

/-!
# AD469x acquisition pipeline: register access, pulse generator, bring-up, acquisition loop

A shallow embedding of

* `drivers/adc/ad469x/ad469x.c` (register access layer and `ad469x_init`),
* `drivers/axi_core/axi_pwmgen/axi_pwm.c` (pulse generator control),
* `projects/ad469x_fmcz/src/ad469x_fmcz.c` (acquisition loop),

followed by theorems about these definitions.

Conventions. `uint8_t`, `uint16_t` and `uint32_t` values are natural numbers, reduced
modulo `2 ^ 8`, `2 ^ 16`, `2 ^ 32` where the C code truncates. `int32_t` status codes are
integers. A C function with out-parameters returns a tuple: the status first, then the
values stored through the out-pointers, then the next state of the collaborators it
drives. The collaborators that are not part of the sources (the serial transport, the
memory-mapped register bus, the clock generator, the reset line) are parameters of the
functions that call them.
-/

namespace AD469x

/-! ## Status codes (`error.h`) -/

/-- Modelled from the spec: the success status of `error.h` (the header is not among the
sources); every operation reports success as 0. -/
def SUCCESS : Int := 0

/-- Modelled from the spec: the failure status of `error.h` (the header is not among the
sources); a negative result. -/
def FAILURE : Int := -1

/-- Modelled from the spec: `IS_ERR_VALUE` of `error.h` (the header is not among the
sources): initialisation failures are negative results. -/
def IS_ERR_VALUE (x : Int) : Bool := decide (x < 0)

/-- The C operator `|` on two `int32_t` values (two's complement). -/
def int32_or (a b : Int) : Int := Int.lor a b

/-! ## The serial transport -/

/-- Modelled from the spec: the transport collaborator behind `spi_write_and_read`
(the function is not among the sources). One full-duplex exchange takes the state of the
bus and the bytes of the frame; it gives a status (0 on success), the byte received at
each position of the frame, and the next state of the bus. -/
structure spi_transport (σ : Type) where
  exchange : σ → List Nat → Int × (Nat → Nat) × σ

/-- The transport handle `dev->spi_desc`: the state of the bus, the frames handed to the
transport so far (oldest first), the maximum clock speed given at initialisation, and the
word width and clock speed currently selected. -/
structure spi_desc (σ : Type) where
  state : σ
  frames : List (List Nat)
  max_speed_hz : Nat
  data_width : Nat
  clk_hz : Nat

/-- A fresh transport handle on a bus in the given state: no frame exchanged yet. -/
def spi_open {σ : Type} (state : σ) (max_speed_hz : Nat) : spi_desc σ :=
  { state := state, frames := [], max_speed_hz := max_speed_hz, data_width := 8,
    clk_hz := max_speed_hz }

/-- The call `spi_write_and_read(desc, buf, n)`. `buf` is the memory that starts at the
address passed as buffer; the first `n` bytes are transmitted and replaced by the bytes
received. -/
def spi_write_and_read {σ : Type} (T : spi_transport σ) (desc : spi_desc σ)
    (buf : List Nat) (n : Nat) : Int × List Nat × spi_desc σ :=
  let frame := buf.take n
  let r := T.exchange desc.state frame
  (r.1,
   (List.range frame.length).map (fun i => r.2.1 i % 256) ++ buf.drop n,
   { desc with state := r.2.2, frames := desc.frames ++ [frame] })

/-- Modelled from the spec: the macro `AD469x_REG_READ` of `ad469x.h` (the header is not
among the sources): the read opcode is the high address byte with the fixed high bit
set. -/
def AD469x_REG_READ (x : Nat) : Nat := (1 <<< 7) ||| (x &&& 0x7F)

/-- Modelled from the spec: the macro `AD469x_REG_WRITE` of `ad469x.h` (the header is not
among the sources): the write opcode is the high address byte with the read bit
cleared. -/
def AD469x_REG_WRITE (x : Nat) : Nat := 0x7F &&& x

/-- A store `buf[i] = v` of a `uint8_t` into the memory that starts at `buf`. -/
def store_byte (mem : List Nat) (i v : Nat) : List Nat := mem.set i (v % 256)

/-! ## Register access layer (`ad469x.c`) -/

/-- The function `ad469x_spi_reg_read`: status, the byte stored to `*reg_data`, and the
transport handle after the exchange. -/
def ad469x_spi_reg_read {σ : Type} (T : spi_transport σ) (dev : spi_desc σ)
    (reg_addr : Nat) : Int × Nat × spi_desc σ :=
  -- uint8_t buf[3];
  let buf := [0, 0, 0]
  let buf := store_byte buf 0 (AD469x_REG_READ (reg_addr >>> 8))
  let buf := store_byte buf 1 (0xFF &&& reg_addr)
  let buf := store_byte buf 2 0xFF
  let r := spi_write_and_read T dev buf 3
  -- *reg_data = buf[1];
  (r.1, r.2.1.getD 1 0, r.2.2)

/-- The declared length of the frame buffer of `ad469x_spi_reg_write` (`uint8_t buf[2]`). -/
def ad469x_spi_reg_write_buf_len : Nat := 2

/-- The stores that `ad469x_spi_reg_write` makes into its frame buffer, in program order,
each as (index, value). -/
def ad469x_spi_reg_write_stores (reg_addr reg_data : Nat) : List (Nat × Nat) :=
  [(0, AD469x_REG_WRITE (reg_addr >>> 8)), (1, 0xFF &&& reg_addr), (2, reg_data)]

/-- The number of bytes that `ad469x_spi_reg_write` asks the transport to exchange. -/
def ad469x_spi_reg_write_len : Nat := 3

/-- The function `ad469x_spi_reg_write`: status and the transport handle after the
exchange. The frame buffer is laid out in contiguous memory: a store at index `i` lands
`i` bytes after the start of the buffer, and the exchange transmits the bytes that start
at the buffer, so the memory modelled is as long as the exchange. -/
def ad469x_spi_reg_write {σ : Type} (T : spi_transport σ) (dev : spi_desc σ)
    (reg_addr reg_data : Nat) : Int × spi_desc σ :=
  let mem := List.replicate ad469x_spi_reg_write_len 0
  let mem := (ad469x_spi_reg_write_stores reg_addr reg_data).foldl
    (fun m s => store_byte m s.1 s.2) mem
  let r := spi_write_and_read T dev mem ad469x_spi_reg_write_len
  (r.1, r.2.2)

/-- The function `ad469x_spi_read_mask`: status, the byte stored to `*data`, and the
transport handle. `stack i` is the content of the local `reg_data[i]` (`uint8_t
reg_data[3]`, not initialised) when the function is entered. -/
def ad469x_spi_read_mask {σ : Type} (T : spi_transport σ) (dev : spi_desc σ)
    (reg_addr mask : Nat) (stack : Nat → Nat) : Int × Nat × spi_desc σ :=
  -- ret = ad469x_spi_reg_read(dev, reg_addr, reg_data);  stores to reg_data[0]
  let r := ad469x_spi_reg_read T dev reg_addr
  let reg_data : Nat → Nat := fun i => if i = 0 then r.2.1 else stack i % 256
  -- *data = (reg_data[1] & mask);
  (r.1, reg_data 1 &&& mask, r.2.2)

/-- The function `ad469x_spi_write_mask`: status and the transport handle. -/
def ad469x_spi_write_mask {σ : Type} (T : spi_transport σ) (dev : spi_desc σ)
    (reg_addr mask data : Nat) : Int × spi_desc σ :=
  let r := ad469x_spi_reg_read T dev reg_addr
  -- reg_data &= ~mask;
  let reg_data := r.2.1 &&& (0xFF ^^^ (mask % 256))
  -- reg_data |= data;
  let reg_data := (reg_data ||| data) % 256
  -- ret |= ad469x_spi_reg_write(dev, reg_addr, reg_data);
  let w := ad469x_spi_reg_write T r.2.2 reg_addr reg_data
  (int32_or r.1 w.1, w.2)

/-! ## Two transports -/

/-- Modelled from the spec: a fault-free transport over a register file. The first byte
of a frame is the opcode: the high bit selects a read, the low seven bits are the high
address byte; the second byte is the low address byte. A write frame stores its third
byte at the address; a read frame returns the stored value as the second received
byte. -/
def regfile : spi_transport (Nat → Nat) where
  exchange regs frame :=
    let b0 := frame.getD 0 0
    let addr := ((b0 &&& 0x7F) <<< 8) ||| frame.getD 1 0
    if b0 &&& 0x80 = 0 then
      (0, fun _ => 0, fun a => if a = addr then frame.getD 2 0 else regs a)
    else
      (0, fun i => if i = 1 then regs addr else 0, regs)

/-- The register of the register file that a 16-bit address selects. -/
def regfile_index (reg_addr : Nat) : Nat :=
  ((reg_addr >>> 8 &&& 0x7F) <<< 8) ||| (0xFF &&& reg_addr)

/-- Modelled from the spec: a transport that answers from a script. Each exchange
consumes the next entry of the script, a status and the bytes received; when the script
is used up, exchanges succeed and receive zeros. -/
def scripted : spi_transport (List (Int × List Nat)) where
  exchange script _ :=
    match script with
    | [] => (0, fun _ => 0, [])
    | e :: rest => (e.1, fun i => e.2.getD i 0, rest)

/-! ## The memory-mapped register bus of the pulse generator -/

/-- Modelled from the spec: the register-bus collaborator behind `axi_io_write` and
`axi_io_read` (the functions are not among the sources). A write takes the state of the
hardware, the base address, the register offset and the value, and gives a status and the
next state; a read gives a status, the value read and the next state. -/
structure axi_bus (τ : Type) where
  write : τ → Nat → Nat → Nat → Int × τ
  read : τ → Nat → Nat → Int × Nat × τ

/-- The register bus as the driver sees it: the state of the hardware and the writes
issued so far, oldest first, each as (base address, register offset, value). -/
structure axi_port (τ : Type) where
  hw : τ
  writes : List (Nat × Nat × Nat)

/-- The call `axi_io_write(base, offset, value)`; the value is a `uint32_t`. -/
def axi_io_write {τ : Type} (B : axi_bus τ) (p : axi_port τ) (base offset value : Nat) :
    Int × axi_port τ :=
  let r := B.write p.hw base offset (value % 2 ^ 32)
  (r.1, { hw := r.2, writes := p.writes ++ [(base, offset, value % 2 ^ 32)] })

/-- The call `axi_io_read(base, offset, &data)`. -/
def axi_io_read {τ : Type} (B : axi_bus τ) (p : axi_port τ) (base offset : Nat) :
    Int × Nat × axi_port τ :=
  let r := B.read p.hw base offset
  (r.1, r.2.1 % 2 ^ 32, { p with hw := r.2.2 })

/-- Modelled from the spec: a fault-free register bus: every access succeeds, a write stores
the value at base + offset and a read returns the stored value. -/
def axi_regs : axi_bus (Nat → Nat) where
  write regs base offset value :=
    (0, fun a => if a = base + offset then value else regs a)
  read regs base offset := (0, regs (base + offset), regs)

/-- Modelled from the spec: a register bus that answers from a script. Each access consumes
the next entry of the script, a status and (for a read) the value read; when the script is
used up, accesses succeed and read zero. -/
def axi_scripted : axi_bus (List (Int × Nat)) where
  write script _ _ _ :=
    match script with
    | [] => (0, [])
    | e :: rest => (e.1, rest)
  read script _ _ :=
    match script with
    | [] => (0, 0, [])
    | e :: rest => (e.1, e.2, rest)

/-! ## Pulse generator control (`axi_pwm.c`) -/

def AXI_PWMGEN_REG_SCRATCHPAD : Nat := 0x08
def AXI_PWMGEN_REG_CONFIG : Nat := 0x10
def AXI_PWMGEN_REG_PULSE_PERIOD : Nat := 0x14
def AXI_PWMGEN_REG_PULSE_WIDTH : Nat := 0x18
def AXI_PWMGEN_TEST_DATA : Nat := 0x5A0F0081
/-- The constant `AXI_PWMGEN_LOAD_CONIG`, `BIT(1)`. -/
def AXI_PWMGEN_LOAD_CONIG : Nat := 1 <<< 1
/-- The constant `AXI_PWMGEN_RESET`, `BIT(0)`. -/
def AXI_PWMGEN_RESET : Nat := 1 <<< 0
def NSEC_PER_USEC : Nat := 1000
def USEC_PER_SEC : Nat := 1000000

/-- Modelled from the spec: the macro `DIV_ROUND_UP` of `util.h` (the header is not among
the sources), `(x + y - 1) / y`: the quotient rounded up. Its operands here are a
`uint32_t` and a `long` constant; on the 32-bit target of the project both are converted
to a 32-bit unsigned type, so the sum is reduced modulo `2 ^ 32`. -/
def DIV_ROUND_UP (x y : Nat) : Nat := ((x + y - 1) % 2 ^ 32) / y

/-- The structure `axi_pwm_desc` (`desc->extra`). -/
structure axi_pwm_desc where
  base_addr : Nat
  ref_clock_Hz : Nat
deriving DecidableEq, Repr

/-- The structure `pwm_desc`. -/
structure pwm_desc where
  period_ns : Nat
  duty_cycle_ns : Nat
  polarity : Nat
  extra : axi_pwm_desc
deriving DecidableEq, Repr

/-- The structure `axi_pwm_init_param` (`param->extra`). -/
structure axi_pwm_init_param where
  base_addr : Nat
  ref_clock_Hz : Nat
deriving DecidableEq, Repr

/-- The structure `pwm_init_param`. -/
structure pwm_init_param where
  period_ns : Nat
  duty_cycle_ns : Nat
  polarity : Nat
  extra : axi_pwm_init_param
deriving DecidableEq, Repr

/-- The 32-bit intermediate `tmp = (ref_clock_Hz / NSEC_PER_USEC) * ns` of `pwm_set_period`
and `pwm_set_duty_cycle`, as stored in the `uint32_t` variable. -/
def pwm_tmp (ref_clock_Hz ns : Nat) : Nat :=
  ((ref_clock_Hz % 2 ^ 32 / NSEC_PER_USEC) * (ns % 2 ^ 32)) % 2 ^ 32

/-- The tick count `DIV_ROUND_UP(tmp, USEC_PER_SEC)` that `pwm_set_period` and
`pwm_set_duty_cycle` compute for `ns`. -/
def pwm_ticks (ref_clock_Hz ns : Nat) : Nat :=
  DIV_ROUND_UP (pwm_tmp ref_clock_Hz ns) USEC_PER_SEC

/-- The function `pwm_enable`. -/
def pwm_enable {τ : Type} (B : axi_bus τ) (p : axi_port τ) (desc : pwm_desc) :
    Int × axi_port τ :=
  axi_io_write B p desc.extra.base_addr AXI_PWMGEN_REG_CONFIG AXI_PWMGEN_LOAD_CONIG

/-- The function `pwm_disable`. -/
def pwm_disable {τ : Type} (B : axi_bus τ) (p : axi_port τ) (desc : pwm_desc) :
    Int × axi_port τ :=
  axi_io_write B p desc.extra.base_addr AXI_PWMGEN_REG_CONFIG AXI_PWMGEN_RESET

/-- The function `pwm_set_period`: status, the descriptor afterwards, the bus afterwards. -/
def pwm_set_period {τ : Type} (B : axi_bus τ) (p : axi_port τ) (desc : pwm_desc)
    (period_ns : Nat) : Int × pwm_desc × axi_port τ :=
  let tmp := pwm_tmp desc.extra.ref_clock_Hz period_ns
  let period_cnt := DIV_ROUND_UP tmp USEC_PER_SEC
  let r := axi_io_write B p desc.extra.base_addr AXI_PWMGEN_REG_PULSE_PERIOD period_cnt
  if r.1 ≠ SUCCESS then (r.1, desc, r.2)
  else (SUCCESS, { desc with period_ns := period_ns % 2 ^ 32 }, r.2)

/-- The function `pwm_get_period`: status and the value stored to `*period_ns`. -/
def pwm_get_period (desc : pwm_desc) : Int × Nat :=
  (SUCCESS, desc.period_ns)

/-- The function `pwm_set_duty_cycle`: status, the descriptor afterwards, the bus
afterwards. -/
def pwm_set_duty_cycle {τ : Type} (B : axi_bus τ) (p : axi_port τ) (desc : pwm_desc)
    (duty_cycle_ns : Nat) : Int × pwm_desc × axi_port τ :=
  let duty_cycle_ns := duty_cycle_ns % 2 ^ 32
  let duty_cycle_ns := if duty_cycle_ns > desc.period_ns then desc.period_ns else duty_cycle_ns
  let tmp := pwm_tmp desc.extra.ref_clock_Hz duty_cycle_ns
  let duty_cnt := DIV_ROUND_UP tmp USEC_PER_SEC
  let r := axi_io_write B p desc.extra.base_addr AXI_PWMGEN_REG_PULSE_WIDTH duty_cnt
  if r.1 ≠ SUCCESS then (r.1, desc, r.2)
  else (SUCCESS, { desc with duty_cycle_ns := duty_cycle_ns }, r.2)

/-- The function `pwm_get_duty_cycle`: status and the value stored to `*duty_cycle_ns`. -/
def pwm_get_duty_cycle (desc : pwm_desc) : Int × Nat :=
  (SUCCESS, desc.duty_cycle_ns)

/-- The function `pwm_init`: status, the descriptor stored to `*desc` (none when nothing
is stored), the bus afterwards. `param` is none for a null pointer; `calloc_desc` and
`calloc_extra` tell whether the two allocations succeed. -/
def pwm_init {τ : Type} (B : axi_bus τ) (p : axi_port τ) (param : Option pwm_init_param)
    (calloc_desc calloc_extra : Bool) : Int × Option pwm_desc × axi_port τ :=
  match param with
  | none => (FAILURE, none, p)
  | some param =>
    if !calloc_desc then (FAILURE, none, p)
    else if !calloc_extra then (FAILURE, none, p)
    else
      let desc : pwm_desc :=
        { period_ns := param.period_ns % 2 ^ 32,
          duty_cycle_ns := param.duty_cycle_ns % 2 ^ 32,
          polarity := param.polarity,
          extra := { base_addr := param.extra.base_addr,
                     ref_clock_Hz := param.extra.ref_clock_Hz % 2 ^ 32 } }
      let w := axi_io_write B p desc.extra.base_addr AXI_PWMGEN_REG_SCRATCHPAD
        AXI_PWMGEN_TEST_DATA
      if w.1 ≠ SUCCESS then (FAILURE, none, w.2)
      else
        let r := axi_io_read B w.2 desc.extra.base_addr AXI_PWMGEN_REG_SCRATCHPAD
        if r.1 ≠ SUCCESS then (FAILURE, none, r.2.2)
        else if r.2.1 ≠ AXI_PWMGEN_TEST_DATA then (FAILURE, none, r.2.2)
        else
          let sp := pwm_set_period B r.2.2 desc desc.period_ns
          if sp.1 ≠ SUCCESS then (FAILURE, none, sp.2.2)
          else
            let sd := pwm_set_duty_cycle B sp.2.2 sp.2.1 sp.2.1.duty_cycle_ns
            if sd.1 ≠ SUCCESS then (FAILURE, none, sd.2.2)
            else
              let en := pwm_enable B sd.2.2 sd.2.1
              if en.1 ≠ SUCCESS then (FAILURE, none, en.2)
              else (SUCCESS, some sd.2.1, en.2)

/-! ## Device configuration (`ad469x.c`) -/

/-- Modelled from the spec: the register map of `ad469x.h` (the header is not among the
sources), taken as a parameter: the addresses of the scratch-pad, setup,
sequencing-control and GP-mode registers, the masks and encoders of the interface-mode,
busy-enable and busy-select fields, and the enumerators the bring-up passes. -/
structure ad469x_regmap where
  REG_SCRATCH_PAD : Nat
  REG_SETUP : Nat
  REG_SEQ_CTRL : Nat
  REG_GP_MODE : Nat
  REG_SETUP_IF_MODE_MASK : Nat
  REG_SETUP_IF_MODE : Nat → Nat
  REG_GP_MODE_BUSY_GP_EN_MASK : Nat
  REG_GP_MODE_BUSY_GP_EN : Nat → Nat
  REG_GP_MODE_BUSY_GP_SEL_MASK : Nat
  REG_GP_MODE_BUSY_GP_SEL : Nat → Nat
  busy_gp0 : Nat
  IF_CONVERSION_MODE : Nat

/-- Modelled from the spec: one register map of the shape the spec gives (scratch-pad,
setup, sequencing-control and GP-mode registers; interface-mode field in the setup
register; busy-enable bit and busy-select field in the GP-mode register), used where a
concrete map is needed. -/
def ad469x_h : ad469x_regmap where
  REG_SCRATCH_PAD := 0x00A
  REG_SETUP := 0x020
  REG_SEQ_CTRL := 0x022
  REG_GP_MODE := 0x027
  REG_SETUP_IF_MODE_MASK := 0x01 <<< 2
  REG_SETUP_IF_MODE x := x <<< 2
  REG_GP_MODE_BUSY_GP_EN_MASK := 0x01 <<< 1
  REG_GP_MODE_BUSY_GP_EN x := x <<< 1
  REG_GP_MODE_BUSY_GP_SEL_MASK := 0x01 <<< 4
  REG_GP_MODE_BUSY_GP_SEL x := x <<< 4
  busy_gp0 := 0
  IF_CONVERSION_MODE := 1

/-- The enumeration `ad469x_channel_sequencing`, as the `switch` of
`ad469x_set_channel_sequence` lists it. -/
inductive ad469x_channel_sequencing where
  | AD469x_single_cycle
  | AD469x_two_cycle
  | AD469x_standard_seq
  | AD469x_advanced_seq
deriving DecidableEq, Repr

/-- The results of the reset-line collaborator (`gpio_get_optional`,
`gpio_direction_output`, `gpio_set_value`), which is not among the sources. -/
structure gpio_results where
  get_optional : Int
  direction_output : Int
  set_value : Int
deriving DecidableEq, Repr

/-- The function `ad469x_init_gpio`; `has_resetn` tells whether `init_param->gpio_resetn`
is set. The two `mdelay(100)` calls have no effect on the result. -/
def ad469x_init_gpio (g : gpio_results) (has_resetn : Bool) : Int :=
  if IS_ERR_VALUE g.get_optional then FAILURE
  else if has_resetn then
    if IS_ERR_VALUE g.direction_output then FAILURE
    else if IS_ERR_VALUE g.set_value then FAILURE
    else SUCCESS
  else SUCCESS

/-- The function `ad469x_set_interface_mode`. -/
def ad469x_set_interface_mode {σ : Type} (T : spi_transport σ) (h : ad469x_regmap)
    (dev : spi_desc σ) (mode : Nat) : Int × spi_desc σ :=
  ad469x_spi_write_mask T dev h.REG_SETUP h.REG_SETUP_IF_MODE_MASK (h.REG_SETUP_IF_MODE mode)

/-- The function `ad469x_set_channel_sequence`. The local `ret` is assigned only in the
single-cycle case; `ret0` is its content otherwise. -/
def ad469x_set_channel_sequence {σ : Type} (T : spi_transport σ) (h : ad469x_regmap)
    (dev : spi_desc σ) (seq : ad469x_channel_sequencing) (ret0 : Int) : Int × spi_desc σ :=
  match seq with
  | .AD469x_single_cycle =>
    let a := ad469x_spi_write_mask T dev h.REG_SEQ_CTRL 0xC0 0x00
    -- ret is assigned again: the status of the first write is dropped
    let b := ad469x_spi_write_mask T a.2 h.REG_SETUP 0x20 0x00
    (b.1, b.2)
  | .AD469x_two_cycle => (ret0, dev)
  | .AD469x_standard_seq => (ret0, dev)
  | .AD469x_advanced_seq => (ret0, dev)

/-- The function `ad469x_set_busy`. -/
def ad469x_set_busy {σ : Type} (T : spi_transport σ) (h : ad469x_regmap)
    (dev : spi_desc σ) (gp_sel : Nat) : Int × spi_desc σ :=
  let a := ad469x_spi_write_mask T dev h.REG_GP_MODE h.REG_GP_MODE_BUSY_GP_EN_MASK
    (h.REG_GP_MODE_BUSY_GP_EN 1)
  -- ret is assigned again: the status of the first write is dropped
  let b := ad469x_spi_write_mask T a.2 h.REG_GP_MODE h.REG_GP_MODE_BUSY_GP_SEL_MASK
    (h.REG_GP_MODE_BUSY_GP_SEL gp_sel)
  (b.1, b.2)

/-- Modelled from the spec: `spi_engine_set_transfer_width` (not among the sources): the
word width of the transport is switched when the call succeeds. -/
def spi_engine_set_transfer_width {σ : Type} (ok : Bool) (desc : spi_desc σ) (width : Nat) :
    spi_desc σ :=
  if ok then { desc with data_width := width } else desc

/-- Modelled from the spec: `spi_engine_set_speed` (not among the sources): the clock of
the transport is switched when the call succeeds. -/
def spi_engine_set_speed {σ : Type} (ok : Bool) (desc : spi_desc σ) (speed_hz : Nat) :
    spi_desc σ :=
  if ok then { desc with clk_hz := speed_hz } else desc

/-- What the collaborators of `ad469x_init` that are not among the sources answer: the
allocator, the clock generator, the reset line, `spi_init`, the width and speed switches
of the transport (before the register accesses and after them), and the two allocations
inside `pwm_init`. `ret_indeterminate` is the content of the local `ret` before its first
assignment. -/
structure init_env where
  malloc_ok : Bool
  clkgen_init : Int
  clkgen_set_rate : Int
  clkgen_get_rate : Int × Nat
  gpio : gpio_results
  spi_init : Int
  width_reg_ok : Bool
  speed_reg_ok : Bool
  width_data_ok : Bool
  speed_data_ok : Bool
  pwm_calloc_desc : Bool
  pwm_calloc_extra : Bool
  ret_indeterminate : Int
deriving DecidableEq, Repr

/-- The fields of `ad469x_init_param` that `ad469x_init` reads. -/
structure ad469x_init_param where
  spi_max_speed_hz : Nat
  spi_data_width : Nat
  pwmgen_init : pwm_init_param
  reg_access_speed : Nat
  dev_id : Nat
  gpio_resetn : Bool
deriving DecidableEq, Repr

/-- The device handle `struct ad469x_dev`; `pwm_desc` is none when `pwm_init` stored no
descriptor. -/
structure ad469x_dev (σ : Type) where
  spi_desc : spi_desc σ
  reg_access_speed : Nat
  dev_id : Nat
  pwm_desc : Option pwm_desc

/-- The lines `ad469x_init` prints. -/
inductive init_message where
  | clkgen_init_failed
  | clkgen_set_rate_failed
  | clock_rate (rate : Nat)
deriving DecidableEq, Repr

/-- The outcome of `ad469x_init`: the status returned, the handle stored to `*device`
(none when nothing is stored), whether `ad469x_remove` ran, the lines printed, and the
register bus of the pulse generator afterwards. -/
structure init_result (σ τ : Type) where
  ret : Int
  device : Option (ad469x_dev σ)
  removed : Bool
  log : List init_message
  axi : axi_port τ

/-- The function `ad469x_init`. `bus` is the state of the serial bus that `spi_init`
opens, `axi` the register bus of the pulse generator. -/
def ad469x_init {σ τ : Type} (T : spi_transport σ) (B : axi_bus τ) (h : ad469x_regmap)
    (env : init_env) (bus : σ) (axi : axi_port τ) (init_param : ad469x_init_param) :
    init_result σ τ :=
  if !env.malloc_ok then
    { ret := -1, device := none, removed := false, log := [], axi := axi }
  else if env.clkgen_init ≠ SUCCESS then
    -- goto error; ret has not been assigned
    { ret := env.ret_indeterminate, device := none, removed := true,
      log := [.clkgen_init_failed], axi := axi }
  else if env.clkgen_set_rate ≠ SUCCESS then
    { ret := env.ret_indeterminate, device := none, removed := true,
      log := [.clkgen_set_rate_failed], axi := axi }
  else
    let log := [init_message.clock_rate env.clkgen_get_rate.2]
    let ret := ad469x_init_gpio env.gpio init_param.gpio_resetn
    if IS_ERR_VALUE ret then
      { ret := ret, device := none, removed := true, log := log, axi := axi }
    else
      let ret := env.spi_init
      if ret < 0 then
        { ret := ret, device := none, removed := true, log := log, axi := axi }
      else
        let spi := spi_open bus init_param.spi_max_speed_hz
        let spi := spi_engine_set_transfer_width env.width_reg_ok spi 8
        let spi := spi_engine_set_speed env.speed_reg_ok spi init_param.reg_access_speed
        -- ad469x_spi_reg_read(dev, AD469x_REG_SCRATCH_PAD, &data);
        let r0 := ad469x_spi_reg_read T spi h.REG_SCRATCH_PAD
        -- data = 0xEA; ret = ad469x_spi_reg_write(dev, AD469x_REG_SCRATCH_PAD, data);
        let w := ad469x_spi_reg_write T r0.2.2 h.REG_SCRATCH_PAD 0xEA
        let ret := w.1
        if ret < 0 then
          { ret := ret, device := none, removed := true, log := log, axi := axi }
        else
          -- the results of the calls below are not assigned to anything
          let r1 := ad469x_spi_reg_read T w.2 h.REG_SCRATCH_PAD
          let b := ad469x_set_busy T h r1.2.2 h.busy_gp0
          let c := ad469x_set_channel_sequence T h b.2 .AD469x_single_cycle
            env.ret_indeterminate
          let m := ad469x_set_interface_mode T h c.2 h.IF_CONVERSION_MODE
          let spi := spi_engine_set_transfer_width env.width_data_ok m.2
            init_param.spi_data_width
          let spi := spi_engine_set_speed env.speed_data_ok spi spi.max_speed_hz
          let pw := pwm_init B axi (some init_param.pwmgen_init) env.pwm_calloc_desc
            env.pwm_calloc_extra
          -- *device = dev; return ret;
          { ret := ret,
            device := some { spi_desc := spi, reg_access_speed := init_param.reg_access_speed,
                             dev_id := init_param.dev_id, pwm_desc := pw.2.1 },
            removed := false, log := log, axi := pw.2.2 }

/-! ## Acquisition loop (`ad469x_fmcz.c`) -/

def AD469x_EVB_SAMPLE_NO : Nat := 1000

/-- Modelled from the spec: the offload collaborator behind
`spi_engine_offload_transfer` (not among the sources). A transfer takes the state of the
engine, the parameter word `commands_data[0]` and the repetition count; it gives a status,
the 32-bit words found at the destination address once the settling delay has passed and
the range has been invalidated (word `i` at byte offset `4 * i`), and the next state. -/
structure offload_engine (ρ : Type) where
  transfer : ρ → Nat → Nat → Int × (Nat → Nat) × ρ

/-- Modelled from the spec: the macro `AD469x_CMD_CONFIG_CH_SEL` of `ad469x.h` (the header
is not among the sources): the conversion-mode command that selects a channel packs the
channel index into a bit field of the command byte. -/
def AD469x_CMD_CONFIG_CH_SEL (x : Nat) : Nat := (1 <<< 7) ||| ((x &&& 0xF) <<< 3)

/-- The state of `main` while it runs the acquisition loop: the counter `j`, the offload
engine, the transfers triggered so far as (parameter word, repetitions), the lines printed
so far as (index, data), and the value `main` returned, once it has returned. -/
structure loop_state (ρ : Type) where
  j : Nat
  engine : ρ
  transfers : List (Nat × Nat)
  printed : List (Nat × Nat)
  exit : Option Int

/-- The state in which `main` enters the loop (`j = 0`). -/
def loop_entry {ρ : Type} (engine : ρ) : loop_state ρ :=
  { j := 0, engine := engine, transfers := [], printed := [], exit := none }

/-- The parameter word `commands_data[0]` that the loop body sets for a value of `j`;
`ch_sel` is the macro `AD469x_CMD_CONFIG_CH_SEL`. -/
def loop_command (ch_sel : Nat → Nat) (j : Nat) : Nat :=
  if j % 2 ≠ 0 then (ch_sel 0 <<< 8) % 2 ^ 32 else (ch_sel 1 <<< 8) % 2 ^ 32

/-- The lines the decode loop prints from the destination words: for each `i` below
`AD469x_EVB_SAMPLE_NO / 2`, the index and `*offload_data & 0xFFFFF`. -/
def loop_decode (words : Nat → Nat) : List (Nat × Nat) :=
  (List.range (AD469x_EVB_SAMPLE_NO / 2)).map (fun i => (i, (words i % 2 ^ 32) &&& 0xFFFFF))

/-- One pass through the body of `while (1)` in `main`; a state in which `main` has
returned stays as it is. -/
def loop_body {ρ : Type} (ch_sel : Nat → Nat) (E : offload_engine ρ) (st : loop_state ρ) :
    loop_state ρ :=
  match st.exit with
  | some _ => st
  | none =>
    let commands_data := loop_command ch_sel st.j
    let j := (st.j + 1) % 2 ^ 32
    let r := E.transfer st.engine commands_data AD469x_EVB_SAMPLE_NO
    let transfers := st.transfers ++ [(commands_data, AD469x_EVB_SAMPLE_NO)]
    if r.1 ≠ SUCCESS then
      { j := j, engine := r.2.2, transfers := transfers, printed := st.printed,
        exit := some r.1 }
    else
      { j := j, engine := r.2.2, transfers := transfers,
        printed := st.printed ++ loop_decode r.2.1, exit := none }

/-- The loop of `main` run for `n` passes. -/
def main_loop {ρ : Type} (ch_sel : Nat → Nat) (E : offload_engine ρ) :
    Nat → loop_state ρ → loop_state ρ
  | 0, st => st
  | n + 1, st => main_loop ch_sel E n (loop_body ch_sel E st)

/-- What every pass of the loop keeps true: while `main` has not returned, `j` is the
number of transfers triggered (modulo `2 ^ 32`), and the `k`-th transfer triggered carried
the parameter word of pass `k` and 1000 repetitions. -/
def loop_inv {ρ : Type} (ch_sel : Nat → Nat) (st : loop_state ρ) : Prop :=
  (st.exit = none → st.j = st.transfers.length % 2 ^ 32) ∧
  ∀ k, k < st.transfers.length →
    st.transfers[k]? = some (loop_command ch_sel k, AD469x_EVB_SAMPLE_NO)

/-- Modelled from the spec: an offload engine whose transfers all succeed and deliver the
same destination words. -/
def offload_const (words : Nat → Nat) : offload_engine Unit where
  transfer _ _ _ := (0, words, ())

/-! ## The tick count of the spec -/

/-- The tick count in the words of the spec: `ceil(ns * ref_clock_Hz / 1e9)` in exact
arithmetic. -/
def spec_ticks (ref_clock_Hz ns : Nat) : Nat :=
  (ns * ref_clock_Hz + (10 ^ 9 - 1)) / 10 ^ 9

/-! ## The configuration of the project (`ad469x_fmcz.c`) -/

/-- The initialisation parameters that `main` passes to `ad469x_init`. The base address
of the pulse generator, the polarity enumerator and the device identity come from headers
that are not among the sources and are arguments here. -/
def fmcz_init_param (pwm_base polarity dev_id : Nat) : ad469x_init_param :=
  { spi_max_speed_hz := 80000000,
    spi_data_width := 16,
    pwmgen_init :=
      { period_ns := 1000, duty_cycle_ns := 10, polarity := polarity,
        extra := { base_addr := pwm_base, ref_clock_Hz := 160000000 } },
    reg_access_speed := 20000000,
    dev_id := dev_id,
    gpio_resetn := true }

/-- Collaborators of `ad469x_init` that all succeed; the clock generator reports the rate
that was requested. -/
def env_all_ok (ret_indeterminate : Int) : init_env :=
  { malloc_ok := true, clkgen_init := 0, clkgen_set_rate := 0,
    clkgen_get_rate := (0, 160000000), gpio := ⟨0, 0, 0⟩, spi_init := 0,
    width_reg_ok := true, speed_reg_ok := true, width_data_ok := true,
    speed_data_ok := true, pwm_calloc_desc := true, pwm_calloc_extra := true,
    ret_indeterminate := ret_indeterminate }

/-! ## Byte-level facts -/

theorem read_opcode_facts : ∀ y < 128,
    (128 ||| y) % 256 = 128 ||| y ∧ (128 ||| y) &&& 128 ≠ 0 ∧ (128 ||| y) &&& 127 = y := by
  decide

theorem write_opcode_facts : ∀ y < 128,
    y % 256 = y ∧ y &&& 128 = 0 ∧ y &&& 127 = y := by
  decide

theorem and_255_lt (x : Nat) : 255 &&& x < 256 := by
  rw [Nat.and_comm]
  exact Nat.and_lt_two_pow x (by norm_num : 255 < 2 ^ 8)

theorem and_127_lt (x : Nat) : x &&& 127 < 128 :=
  Nat.and_lt_two_pow x (by norm_num : 127 < 2 ^ 7)

theorem or_lt_256 {a b : Nat} (ha : a < 256) (hb : b < 256) : a ||| b < 256 :=
  Nat.or_lt_two_pow (n := 8) ha hb

theorem and_lt_256_left {a : Nat} (b : Nat) (ha : a < 256) : a &&& b < 256 :=
  lt_of_le_of_lt Nat.and_le_left ha

/-- The read exchange of `ad469x_spi_reg_read` over the register file. -/
theorem reg_read_regfile (dev : spi_desc (Nat → Nat)) (reg_addr : Nat) :
    ad469x_spi_reg_read regfile dev reg_addr =
      (0, dev.state (regfile_index reg_addr) % 256,
       { dev with
         state := dev.state,
         frames := dev.frames ++
           [[AD469x_REG_READ (reg_addr >>> 8), 0xFF &&& reg_addr, 0xFF]] }) := by
  obtain ⟨h1, h2, h3⟩ := read_opcode_facts ((reg_addr >>> 8) &&& 127) (and_127_lt _)
  have h4 : (255 &&& reg_addr) % 256 = 255 &&& reg_addr := Nat.mod_eq_of_lt (and_255_lt _)
  simp [ad469x_spi_reg_read, spi_write_and_read, store_byte, regfile, AD469x_REG_READ,
    regfile_index, h1, h2, h3, h4, List.range_succ]

/-- The write exchange of `ad469x_spi_reg_write` over the register file. -/
theorem reg_write_regfile (dev : spi_desc (Nat → Nat)) (reg_addr v : Nat) :
    ad469x_spi_reg_write regfile dev reg_addr v =
      (0,
       { dev with
         state := fun a => if a = regfile_index reg_addr then v % 256 else dev.state a,
         frames := dev.frames ++
           [[AD469x_REG_WRITE (reg_addr >>> 8), 0xFF &&& reg_addr, v % 256]] }) := by
  obtain ⟨h1, h2, h3⟩ := write_opcode_facts ((reg_addr >>> 8) &&& 127) (and_127_lt _)
  have h4 : (255 &&& reg_addr) % 256 = 255 &&& reg_addr := Nat.mod_eq_of_lt (and_255_lt _)
  have h5 : 127 &&& (reg_addr >>> 8) = (reg_addr >>> 8) &&& 127 := Nat.and_comm _ _
  simp [ad469x_spi_reg_write, ad469x_spi_reg_write_stores, ad469x_spi_reg_write_len,
    spi_write_and_read, store_byte, regfile, AD469x_REG_WRITE,
    regfile_index, h1, h2, h3, h4, h5, List.range_succ]


theorem testBit_255 (i : Nat) : Nat.testBit 255 i = decide (i < 8) :=
  Nat.testBit_two_pow_sub_one 8 i

theorem testBit_of_lt_256 {x : Nat} (hx : x < 256) {i : Nat} (hi : 8 ≤ i) :
    x.testBit i = false :=
  Nat.testBit_lt_two_pow (lt_of_lt_of_le hx
    (show 2 ^ 8 ≤ 2 ^ i from Nat.pow_le_pow_right (by norm_num) hi))

/-- A value with no bit outside the mask is unchanged by masking. -/
theorem and_mask_eq_self {v m : Nat} (hv : v < 256) (h : v &&& (0xFF ^^^ m) = 0) :
    v &&& m = v := by
  apply Nat.eq_of_testBit_eq
  intro i
  have hi := congrArg (fun x => Nat.testBit x i) h
  simp only [Nat.testBit_and, Nat.testBit_xor, testBit_255, Nat.zero_testBit] at hi
  rw [Nat.testBit_and]
  by_cases h8 : i < 8
  · simp only [h8, decide_True] at hi
    cases hv1 : v.testBit i <;> cases hm1 : m.testBit i <;> simp_all
  · rw [testBit_of_lt_256 hv (Nat.le_of_not_lt h8)]
    rfl

/-- The value that `ad469x_spi_write_mask` leaves in the register agrees with the old
content at every bit position outside the mask, when the data has no bit there. -/
theorem masked_bits_kept {old m v : Nat} (hv : v < 256) (h : v &&& (0xFF ^^^ m) = 0)
    (hold : old < 256) (i : Nat) (hi : m.testBit i = false) :
    ((old &&& (0xFF ^^^ m)) ||| v).testBit i = old.testBit i := by
  have hvm := and_mask_eq_self hv h
  have hvi : v.testBit i = false := by
    have := congrArg (fun x => Nat.testBit x i) hvm
    simp only [Nat.testBit_and, hi, Bool.and_false] at this
    exact this.symm
  rw [Nat.testBit_or, Nat.testBit_and, Nat.testBit_xor, testBit_255, hvi, hi]
  by_cases h8 : i < 8
  · simp [h8]
  · simp [testBit_of_lt_256 hold (Nat.le_of_not_lt h8)]

theorem write_mask_regfile (dev : spi_desc (Nat → Nat)) (reg_addr mask data : Nat) :
    ad469x_spi_write_mask regfile dev reg_addr mask data =
      (0,
       { dev with
         state := fun a => if a = regfile_index reg_addr then
            ((dev.state (regfile_index reg_addr) % 256 &&& (0xFF ^^^ (mask % 256))) ||| data)
              % 256
           else dev.state a,
         frames := dev.frames ++
           [[AD469x_REG_READ (reg_addr >>> 8), 0xFF &&& reg_addr, 0xFF],
            [AD469x_REG_WRITE (reg_addr >>> 8), 0xFF &&& reg_addr,
             ((dev.state (regfile_index reg_addr) % 256 &&& (0xFF ^^^ (mask % 256))) ||| data)
               % 256]] }) := by
  simp [ad469x_spi_write_mask, reg_read_regfile, reg_write_regfile, int32_or]
  rfl

/-- C1 (as amended). Over the fault-free register-file transport, for every address, mask
`m`, value `v` and previous register content `old` (all bytes): `ad469x_spi_write_mask`
succeeds, and a following `ad469x_spi_reg_read` of the same address succeeds and yields
`(old & ~m) | v`. When `v` has no bit outside `m`, this is `(old & ~m) | (v & m)` and no
bit outside `m` is changed. -/
theorem write_mask_then_read (dev : spi_desc (Nat → Nat)) (addr m v old : Nat)
    (hm : m < 256) (hv : v < 256) (hold : old < 256)
    (hreg : dev.state (regfile_index addr) = old) :
    (ad469x_spi_write_mask regfile dev addr m v).1 = 0 ∧
    (ad469x_spi_reg_read regfile (ad469x_spi_write_mask regfile dev addr m v).2 addr).1 = 0 ∧
    (ad469x_spi_reg_read regfile (ad469x_spi_write_mask regfile dev addr m v).2 addr).2.1
      = (old &&& (0xFF ^^^ m)) ||| v ∧
    (v &&& (0xFF ^^^ m) = 0 →
      (ad469x_spi_reg_read regfile (ad469x_spi_write_mask regfile dev addr m v).2 addr).2.1
        = (old &&& (0xFF ^^^ m)) ||| (v &&& m) ∧
      ∀ i, m.testBit i = false →
        ((ad469x_spi_reg_read regfile
            (ad469x_spi_write_mask regfile dev addr m v).2 addr).2.1).testBit i
          = old.testBit i) := by
  have hlt : (old &&& (0xFF ^^^ m)) ||| v < 256 := or_lt_256 (and_lt_256_left _ hold) hv
  have hval : (ad469x_spi_reg_read regfile
      (ad469x_spi_write_mask regfile dev addr m v).2 addr).2.1
      = (old &&& (0xFF ^^^ m)) ||| v := by
    rw [write_mask_regfile, reg_read_regfile]
    simp only [if_true, hreg, Nat.mod_eq_of_lt hm, Nat.mod_eq_of_lt hold, Nat.mod_mod,
      Nat.mod_eq_of_lt hlt]
  refine ⟨by rw [write_mask_regfile], by rw [write_mask_regfile, reg_read_regfile], hval, ?_⟩
  intro h
  rw [hval]
  exact ⟨by rw [and_mask_eq_self hv h], fun i hi => masked_bits_kept hv h hold i hi⟩

/-- C1 (as amended) at register content 0x33, mask 0x04 and value 0x04. -/
theorem write_mask_then_read_witness :
    (0x04 < 256 ∧ 0x33 < 256) ∧
    (ad469x_spi_reg_read regfile
      (ad469x_spi_write_mask regfile (spi_open (fun _ => 0x33) 0) 0x20 0x04 0x04).2
        0x20).2.1 = 0x37 :=
  ⟨by decide,
   (write_mask_then_read (spi_open (fun _ => 0x33) 0) 0x20 0x04 0x04 0x33
    (by decide) (by decide) (by decide) rfl).2.2.1⟩

/-- C1 (as stated) fails: with register content 0x33, mask 0x0F and value 0xF5 the read
after the masked write yields 0xF5, not `(0x33 & ~0x0F) | (0xF5 & 0x0F) = 0x35`, and bit 7,
which lies outside the mask, has changed. -/
theorem write_mask_then_read_counterexample :
    (ad469x_spi_reg_read regfile
      (ad469x_spi_write_mask regfile (spi_open (fun _ => 0x33) 0) 0x0A 0x0F 0xF5).2
        0x0A).2.1 = 0xF5 ∧
    (ad469x_spi_reg_read regfile
      (ad469x_spi_write_mask regfile (spi_open (fun _ => 0x33) 0) 0x0A 0x0F 0xF5).2
        0x0A).2.1 ≠ (0x33 &&& (0xFF ^^^ 0x0F)) ||| (0xF5 &&& 0x0F) ∧
    Nat.testBit 0x0F 7 = false ∧
    Nat.testBit (ad469x_spi_reg_read regfile
      (ad469x_spi_write_mask regfile (spi_open (fun _ => 0x33) 0) 0x0A 0x0F 0xF5).2
        0x0A).2.1 7 ≠ Nat.testBit 0x33 7 := by
  decide


/-! ## Masked read -/

/-- Whatever the transport does, the byte `ad469x_spi_read_mask` outputs is taken from the
second element of its local array, which nothing has written, and the status is that of
the read. -/
theorem read_mask_output {σ : Type} (T : spi_transport σ) (dev : spi_desc σ)
    (reg_addr mask : Nat) (stack : Nat → Nat) :
    (ad469x_spi_read_mask T dev reg_addr mask stack).2.1 = (stack 1 % 256) &&& mask ∧
    (ad469x_spi_read_mask T dev reg_addr mask stack).1
      = (ad469x_spi_reg_read T dev reg_addr).1 := by
  simp [ad469x_spi_read_mask]

/-- C2 at a failing input. The register at address 0x00A holds 0x5A, the mask is 0xFF and
the local array of `ad469x_spi_read_mask` holds zeros on entry: `ad469x_spi_reg_read`
succeeds and returns 0x5A, while `ad469x_spi_read_mask` succeeds and outputs 0x00, not
`0x5A & 0xFF`. -/
theorem read_mask_failing_input :
    (ad469x_spi_reg_read regfile (spi_open (fun _ => 0x5A) 0) 0x00A).1 = 0 ∧
    (ad469x_spi_reg_read regfile (spi_open (fun _ => 0x5A) 0) 0x00A).2.1 = 0x5A ∧
    (ad469x_spi_read_mask regfile (spi_open (fun _ => 0x5A) 0) 0x00A 0xFF (fun _ => 0)).1
      = 0 ∧
    (ad469x_spi_read_mask regfile (spi_open (fun _ => 0x5A) 0) 0x00A 0xFF (fun _ => 0)).2.1
      = 0x00 ∧
    (0x5A &&& 0xFF) ≠ 0x00 := by
  decide

/-! ## Status of a masked write -/

theorem int32_or_eq_zero (a b : Int) : int32_or a b = 0 ↔ a = 0 ∧ b = 0 := by
  unfold int32_or
  cases a with
  | ofNat m =>
    cases b with
    | ofNat n =>
      simp only [Int.lor, Int.ofNat_eq_coe]
      constructor
      · intro h
        have h0 : m ||| n = 0 := by exact_mod_cast h
        have hm : m = 0 := by
          apply Nat.eq_of_testBit_eq
          intro i
          have := congrArg (fun x => Nat.testBit x i) h0
          simp only [Nat.testBit_or, Nat.zero_testBit, Bool.or_eq_false_iff] at this
          simp [this.1]
        have hn : n = 0 := by
          apply Nat.eq_of_testBit_eq
          intro i
          have := congrArg (fun x => Nat.testBit x i) h0
          simp only [Nat.testBit_or, Nat.zero_testBit, Bool.or_eq_false_iff] at this
          simp [this.2]
        subst hm; subst hn; simp
      · rintro ⟨h1, h2⟩
        have hm : m = 0 := by exact_mod_cast h1
        have hn : n = 0 := by exact_mod_cast h2
        subst hm; subst hn; rfl
    | negSucc n =>
      simp only [Int.lor]
      constructor
      · intro h; exact absurd h (by simp [Int.negSucc_ne_zero])
      · rintro ⟨_, h2⟩; exact absurd h2 (by simp [Int.negSucc_ne_zero])
  | negSucc m =>
    cases b with
    | ofNat n =>
      simp only [Int.lor]
      constructor
      · intro h; exact absurd h (by simp [Int.negSucc_ne_zero])
      · rintro ⟨h1, _⟩; exact absurd h1 (by simp [Int.negSucc_ne_zero])
    | negSucc n =>
      simp only [Int.lor]
      constructor
      · intro h; exact absurd h (by simp [Int.negSucc_ne_zero])
      · rintro ⟨h1, _⟩; exact absurd h1 (by simp [Int.negSucc_ne_zero])

theorem int32_or_zero_left (b : Int) : int32_or 0 b = b := by
  unfold int32_or
  cases b with
  | ofNat n =>
    show Int.lor (Int.ofNat 0) (Int.ofNat n) = Int.ofNat n
    simp [Int.lor]
  | negSucc n =>
    show Int.lor (Int.ofNat 0) (Int.negSucc n) = Int.negSucc n
    simp [Int.lor, Nat.ldiff]

theorem int32_or_zero_right (a : Int) : int32_or a 0 = a := by
  unfold int32_or
  cases a with
  | ofNat n =>
    show Int.lor (Int.ofNat n) (Int.ofNat 0) = Int.ofNat n
    simp [Int.lor]
  | negSucc n =>
    show Int.lor (Int.negSucc n) (Int.ofNat 0) = Int.negSucc n
    simp [Int.lor, Nat.ldiff]

theorem int32_or_failure_left (b : Int) : int32_or FAILURE b = FAILURE := by
  unfold int32_or FAILURE
  cases b with
  | ofNat n =>
    show Int.lor (Int.negSucc 0) (Int.ofNat n) = Int.negSucc 0
    simp [Int.lor, Nat.ldiff]
  | negSucc n =>
    show Int.lor (Int.negSucc 0) (Int.negSucc n) = Int.negSucc 0
    simp [Int.lor]

theorem int32_or_neg (a b : Int) (h : a < 0 ∨ b < 0) : int32_or a b < 0 := by
  unfold int32_or
  cases a with
  | ofNat m =>
    cases b with
    | ofNat n =>
      rcases h with h | h
      · exact absurd h (by simp)
      · exact absurd h (by simp)
    | negSucc n => exact Int.negSucc_lt_zero _
  | negSucc m =>
    cases b with
    | ofNat n => exact Int.negSucc_lt_zero _
    | negSucc n => exact Int.negSucc_lt_zero _

/-- The two exchanges of `ad469x_spi_write_mask` over a transport whose next two answers
are given. -/
theorem write_mask_scripted (dev0 : spi_desc (List (Int × List Nat))) (r_read r_write : Int)
    (rx_read rx_write : List Nat) (rest : List (Int × List Nat)) (addr mask data : Nat) :
    ad469x_spi_write_mask scripted
        { dev0 with state := (r_read, rx_read) :: (r_write, rx_write) :: rest }
        addr mask data =
      (int32_or r_read r_write,
       { dev0 with
         state := rest,
         frames := dev0.frames ++
          [[AD469x_REG_READ (addr >>> 8) % 256, (0xFF &&& addr) % 256, 0xFF],
           [AD469x_REG_WRITE (addr >>> 8) % 256, (0xFF &&& addr) % 256,
            ((rx_read.getD 1 0 % 256 &&& (0xFF ^^^ (mask % 256))) ||| data) % 256]] }) := by
  simp [ad469x_spi_write_mask, ad469x_spi_reg_read, ad469x_spi_reg_write,
    ad469x_spi_reg_write_stores, ad469x_spi_reg_write_len, spi_write_and_read, store_byte,
    scripted, List.range_succ]

/-- C10 (as amended). For every pair of transport results `r_read`, `r_write` (and
whatever bytes the two exchanges receive), `ad469x_spi_write_mask` hands the transport
the read frame and then the write frame, whether or not the read failed, and returns the
bitwise OR `r_read | r_write`: 0 exactly when both exchanges succeed, `r_write` when
`r_read` is 0, `r_read` when `r_write` is 0 or `r_read` is -1, and a negative value
whenever one of the two is negative. -/
theorem write_mask_status (dev0 : spi_desc (List (Int × List Nat))) (r_read r_write : Int)
    (rx_read rx_write : List Nat) (rest : List (Int × List Nat)) (addr mask data : Nat) :
    let out := ad469x_spi_write_mask scripted
      { dev0 with state := (r_read, rx_read) :: (r_write, rx_write) :: rest } addr mask data
    out.2.frames = dev0.frames ++
      [[AD469x_REG_READ (addr >>> 8) % 256, (0xFF &&& addr) % 256, 0xFF],
       [AD469x_REG_WRITE (addr >>> 8) % 256, (0xFF &&& addr) % 256,
        ((rx_read.getD 1 0 % 256 &&& (0xFF ^^^ (mask % 256))) ||| data) % 256]] ∧
    out.2.state = rest ∧
    out.1 = int32_or r_read r_write ∧
    (out.1 = 0 ↔ r_read = 0 ∧ r_write = 0) ∧
    (r_read = 0 → out.1 = r_write) ∧
    (r_write = 0 ∨ r_read = FAILURE → out.1 = r_read) ∧
    (r_read < 0 ∨ r_write < 0 → out.1 < 0) := by
  intro out
  have hout : out = _ := write_mask_scripted dev0 r_read r_write rx_read rx_write rest
    addr mask data
  rw [hout]
  refine ⟨rfl, rfl, rfl, int32_or_eq_zero _ _, ?_, ?_, int32_or_neg _ _⟩
  · intro h
    show int32_or r_read r_write = r_write
    rw [h, int32_or_zero_left]
  · intro h
    show int32_or r_read r_write = r_read
    rcases h with h | h
    · rw [h, int32_or_zero_right]
    · rw [h, int32_or_failure_left]

/-- C10 (as amended) at a failed read (-1) followed by a successful write. -/
theorem write_mask_status_witness :
    ((0 : Int) = 0 ∨ FAILURE = FAILURE) ∧
    (ad469x_spi_write_mask scripted (spi_open [(-1, []), (0, [])] 0) 0x20 0x04 0x04).1
      = -1 :=
  ⟨Or.inl rfl,
   (write_mask_status (spi_open [] 0) (-1) 0 [] [] [] 0x20 0x04 0x04).2.2.2.2.2.1
     (Or.inl rfl)⟩

/-- C10 (as stated) fails: when the read exchange returns -2 and the write exchange
returns -5, `ad469x_spi_write_mask` returns -1, which is not the first error -2. -/
theorem write_mask_status_counterexample :
    (ad469x_spi_write_mask scripted (spi_open [(-2, []), (-5, [])] 0) 0x20 0x04 0x04).1
      = -1 ∧
    (ad469x_spi_write_mask scripted (spi_open [(-2, []), (-5, [])] 0) 0x20 0x04 0x04).1
      ≠ (if (-2 : Int) ≠ 0 then -2 else -5) := by
  decide

/-! ## Pulse generator: period and duty cycle -/

theorem pwm_ticks_lt (ref ns : Nat) : pwm_ticks ref ns < 2 ^ 32 := by
  unfold pwm_ticks DIV_ROUND_UP USEC_PER_SEC
  have h : (pwm_tmp ref ns + 1000000 - 1) % 2 ^ 32 < 2 ^ 32 := Nat.mod_lt _ (by norm_num)
  omega

theorem axi_io_write_writes {τ : Type} (B : axi_bus τ) (p : axi_port τ) (base off v : Nat) :
    (axi_io_write B p base off v).2.writes = p.writes ++ [(base, off, v % 2 ^ 32)] := rfl

theorem set_period_ok {τ : Type} (B : axi_bus τ) (p : axi_port τ) (desc : pwm_desc)
    (ns : Nat)
    (h : (axi_io_write B p desc.extra.base_addr AXI_PWMGEN_REG_PULSE_PERIOD
      (pwm_ticks desc.extra.ref_clock_Hz ns)).1 = SUCCESS) :
    pwm_set_period B p desc ns =
      (SUCCESS, { desc with period_ns := ns % 2 ^ 32 },
       (axi_io_write B p desc.extra.base_addr AXI_PWMGEN_REG_PULSE_PERIOD
        (pwm_ticks desc.extra.ref_clock_Hz ns)).2) := by
  show (if (axi_io_write B p desc.extra.base_addr AXI_PWMGEN_REG_PULSE_PERIOD
      (pwm_ticks desc.extra.ref_clock_Hz ns)).1 ≠ SUCCESS then _ else _) = _
  rw [if_neg (not_not.mpr h)]
  rfl

theorem set_period_err {τ : Type} (B : axi_bus τ) (p : axi_port τ) (desc : pwm_desc)
    (ns : Nat)
    (h : (axi_io_write B p desc.extra.base_addr AXI_PWMGEN_REG_PULSE_PERIOD
      (pwm_ticks desc.extra.ref_clock_Hz ns)).1 ≠ SUCCESS) :
    pwm_set_period B p desc ns =
      ((axi_io_write B p desc.extra.base_addr AXI_PWMGEN_REG_PULSE_PERIOD
        (pwm_ticks desc.extra.ref_clock_Hz ns)).1, desc,
       (axi_io_write B p desc.extra.base_addr AXI_PWMGEN_REG_PULSE_PERIOD
        (pwm_ticks desc.extra.ref_clock_Hz ns)).2) := by
  show (if (axi_io_write B p desc.extra.base_addr AXI_PWMGEN_REG_PULSE_PERIOD
      (pwm_ticks desc.extra.ref_clock_Hz ns)).1 ≠ SUCCESS then _ else _) = _
  rw [if_pos h]
  rfl

/-- The duty cycle `pwm_set_duty_cycle` works with: the argument clamped to the period. -/
theorem set_duty_cycle_ok {τ : Type} (B : axi_bus τ) (p : axi_port τ) (desc : pwm_desc)
    (ns : Nat)
    (h : (axi_io_write B p desc.extra.base_addr AXI_PWMGEN_REG_PULSE_WIDTH
      (pwm_ticks desc.extra.ref_clock_Hz
        (if ns % 2 ^ 32 > desc.period_ns then desc.period_ns else ns % 2 ^ 32))).1
      = SUCCESS) :
    pwm_set_duty_cycle B p desc ns =
      (SUCCESS,
       { desc with duty_cycle_ns :=
          if ns % 2 ^ 32 > desc.period_ns then desc.period_ns else ns % 2 ^ 32 },
       (axi_io_write B p desc.extra.base_addr AXI_PWMGEN_REG_PULSE_WIDTH
        (pwm_ticks desc.extra.ref_clock_Hz
          (if ns % 2 ^ 32 > desc.period_ns then desc.period_ns else ns % 2 ^ 32))).2) := by
  show (if (axi_io_write B p desc.extra.base_addr AXI_PWMGEN_REG_PULSE_WIDTH
      (pwm_ticks desc.extra.ref_clock_Hz
        (if ns % 2 ^ 32 > desc.period_ns then desc.period_ns else ns % 2 ^ 32))).1
      ≠ SUCCESS then _ else _) = _
  rw [if_neg (not_not.mpr h)]
  rfl

theorem set_duty_cycle_err {τ : Type} (B : axi_bus τ) (p : axi_port τ) (desc : pwm_desc)
    (ns : Nat)
    (h : (axi_io_write B p desc.extra.base_addr AXI_PWMGEN_REG_PULSE_WIDTH
      (pwm_ticks desc.extra.ref_clock_Hz
        (if ns % 2 ^ 32 > desc.period_ns then desc.period_ns else ns % 2 ^ 32))).1
      ≠ SUCCESS) :
    pwm_set_duty_cycle B p desc ns =
      ((axi_io_write B p desc.extra.base_addr AXI_PWMGEN_REG_PULSE_WIDTH
        (pwm_ticks desc.extra.ref_clock_Hz
          (if ns % 2 ^ 32 > desc.period_ns then desc.period_ns else ns % 2 ^ 32))).1,
       desc,
       (axi_io_write B p desc.extra.base_addr AXI_PWMGEN_REG_PULSE_WIDTH
        (pwm_ticks desc.extra.ref_clock_Hz
          (if ns % 2 ^ 32 > desc.period_ns then desc.period_ns else ns % 2 ^ 32))).2) := by
  show (if (axi_io_write B p desc.extra.base_addr AXI_PWMGEN_REG_PULSE_WIDTH
      (pwm_ticks desc.extra.ref_clock_Hz
        (if ns % 2 ^ 32 > desc.period_ns then desc.period_ns else ns % 2 ^ 32))).1
      ≠ SUCCESS then _ else _) = _
  rw [if_pos h]
  rfl

/-- The register write of `pwm_set_period`: the tick count goes to the period register. -/
theorem set_period_writes {τ : Type} (B : axi_bus τ) (p : axi_port τ) (desc : pwm_desc)
    (ns : Nat) :
    (pwm_set_period B p desc ns).2.2.writes = p.writes ++
      [(desc.extra.base_addr, AXI_PWMGEN_REG_PULSE_PERIOD,
        pwm_ticks desc.extra.ref_clock_Hz ns)] := by
  have hm := Nat.mod_eq_of_lt (pwm_ticks_lt desc.extra.ref_clock_Hz ns)
  by_cases h : (axi_io_write B p desc.extra.base_addr AXI_PWMGEN_REG_PULSE_PERIOD
      (pwm_ticks desc.extra.ref_clock_Hz ns)).1 = SUCCESS
  · rw [set_period_ok B p desc ns h, axi_io_write_writes, hm]
  · rw [set_period_err B p desc ns h, axi_io_write_writes, hm]

/-- The register write of `pwm_set_duty_cycle`: the tick count of the clamped duty cycle
goes to the pulse-width register. -/
theorem set_duty_cycle_writes {τ : Type} (B : axi_bus τ) (p : axi_port τ) (desc : pwm_desc)
    (ns : Nat) :
    (pwm_set_duty_cycle B p desc ns).2.2.writes = p.writes ++
      [(desc.extra.base_addr, AXI_PWMGEN_REG_PULSE_WIDTH,
        pwm_ticks desc.extra.ref_clock_Hz
          (if ns % 2 ^ 32 > desc.period_ns then desc.period_ns else ns % 2 ^ 32))] := by
  have hm := Nat.mod_eq_of_lt (pwm_ticks_lt desc.extra.ref_clock_Hz
    (if ns % 2 ^ 32 > desc.period_ns then desc.period_ns else ns % 2 ^ 32))
  by_cases h : (axi_io_write B p desc.extra.base_addr AXI_PWMGEN_REG_PULSE_WIDTH
      (pwm_ticks desc.extra.ref_clock_Hz
        (if ns % 2 ^ 32 > desc.period_ns then desc.period_ns else ns % 2 ^ 32))).1 = SUCCESS
  · rw [set_duty_cycle_ok B p desc ns h, axi_io_write_writes, hm]
  · rw [set_duty_cycle_err B p desc ns h, axi_io_write_writes, hm]

/-- C4. For every descriptor and every `ns` (a `uint32_t`): when the write of the period
register succeeds, `pwm_set_period` succeeds and a following `pwm_get_period` returns
exactly `ns`, while the period register was written with the tick count; when the write
fails, `pwm_set_period` returns the error of the write and leaves the descriptor, and so
the stored period, unchanged. -/
theorem set_period_then_get {τ : Type} (B : axi_bus τ) (p : axi_port τ) (desc : pwm_desc)
    (ns : Nat) (hns : ns < 2 ^ 32) :
    let w := axi_io_write B p desc.extra.base_addr AXI_PWMGEN_REG_PULSE_PERIOD
      (pwm_ticks desc.extra.ref_clock_Hz ns)
    let out := pwm_set_period B p desc ns
    (w.1 = SUCCESS →
      out.1 = SUCCESS ∧ pwm_get_period out.2.1 = (SUCCESS, ns) ∧
      out.2.2.writes = p.writes ++
        [(desc.extra.base_addr, AXI_PWMGEN_REG_PULSE_PERIOD,
          pwm_ticks desc.extra.ref_clock_Hz ns)]) ∧
    (w.1 ≠ SUCCESS →
      out.1 = w.1 ∧ out.2.1 = desc ∧
      pwm_get_period out.2.1 = (SUCCESS, desc.period_ns)) := by
  intro w out
  refine ⟨fun hw => ?_, fun hw => ?_⟩
  · have ho : out = _ := set_period_ok B p desc ns hw
    refine ⟨by rw [ho], ?_, set_period_writes B p desc ns⟩
    rw [ho]
    show (SUCCESS, ns % 2 ^ 32) = (SUCCESS, ns)
    rw [Nat.mod_eq_of_lt hns]
  · have ho : out = _ := set_period_err B p desc ns hw
    refine ⟨by rw [ho], by rw [ho], ?_⟩
    rw [ho]
    rfl

/-- C4 at a successful write (period 1000 ns on a fault-free bus) and at a failed write
(stored period 500 ns, the write returns -1). -/
theorem set_period_then_get_witness :
    ((1000 < 2 ^ 32 ∧ (0 : Int) = SUCCESS) ∧
      pwm_get_period (pwm_set_period axi_regs ⟨fun _ => 0, []⟩
        ⟨0, 0, 0, ⟨0x44A00000, 160000000⟩⟩ 1000).2.1 = (SUCCESS, 1000)) ∧
    ((1000 < 2 ^ 32 ∧ (-1 : Int) ≠ SUCCESS) ∧
      pwm_get_period (pwm_set_period axi_scripted ⟨[(-1, 0)], []⟩
        ⟨500, 0, 0, ⟨0x44A00000, 160000000⟩⟩ 1000).2.1 = (SUCCESS, 500)) :=
  ⟨⟨⟨by norm_num, rfl⟩,
    ((set_period_then_get axi_regs ⟨fun _ => 0, []⟩ ⟨0, 0, 0, ⟨0x44A00000, 160000000⟩⟩ 1000
      (by norm_num)).1 rfl).2.1⟩,
   ⟨⟨by norm_num, by decide⟩,
    ((set_period_then_get axi_scripted ⟨[(-1, 0)], []⟩ ⟨500, 0, 0, ⟨0x44A00000, 160000000⟩⟩
      1000 (by norm_num)).2 (by decide)).2.2⟩⟩

/-! ## Pulse generator: the clamp of the duty cycle -/

/-- C7. For every descriptor with current period `p` and every `ns` (a `uint32_t`), a
successful `pwm_set_duty_cycle(ns)` with `ns > p` writes the tick count of `p` to the
pulse-width register and stores `p` as the duty cycle; with `ns <= p` it writes the tick
count of `ns` and stores `ns`. -/
theorem set_duty_cycle_clamps {τ : Type} (B : axi_bus τ) (p : axi_port τ) (desc : pwm_desc)
    (ns : Nat) (hns : ns < 2 ^ 32) (hok : (pwm_set_duty_cycle B p desc ns).1 = SUCCESS) :
    (desc.period_ns < ns →
      (pwm_set_duty_cycle B p desc ns).2.1.duty_cycle_ns = desc.period_ns ∧
      (pwm_set_duty_cycle B p desc ns).2.2.writes = p.writes ++
        [(desc.extra.base_addr, AXI_PWMGEN_REG_PULSE_WIDTH,
          pwm_ticks desc.extra.ref_clock_Hz desc.period_ns)]) ∧
    (ns ≤ desc.period_ns →
      (pwm_set_duty_cycle B p desc ns).2.1.duty_cycle_ns = ns ∧
      (pwm_set_duty_cycle B p desc ns).2.2.writes = p.writes ++
        [(desc.extra.base_addr, AXI_PWMGEN_REG_PULSE_WIDTH,
          pwm_ticks desc.extra.ref_clock_Hz ns)]) := by
  have hw : (axi_io_write B p desc.extra.base_addr AXI_PWMGEN_REG_PULSE_WIDTH
      (pwm_ticks desc.extra.ref_clock_Hz
        (if ns % 2 ^ 32 > desc.period_ns then desc.period_ns else ns % 2 ^ 32))).1
      = SUCCESS := by
    by_contra h
    rw [set_duty_cycle_err B p desc ns h] at hok
    exact h hok
  have hwr := set_duty_cycle_writes B p desc ns
  rw [set_duty_cycle_ok B p desc ns hw] at hwr ⊢
  rw [Nat.mod_eq_of_lt hns] at hwr ⊢
  refine ⟨fun h => ?_, fun h => ?_⟩
  · have hgt : ns > desc.period_ns := h
    rw [if_pos hgt] at hwr ⊢
    exact ⟨rfl, hwr⟩
  · have hgt : ¬ ns > desc.period_ns := Nat.not_lt.mpr h
    rw [if_neg hgt] at hwr ⊢
    exact ⟨rfl, hwr⟩

/-- C7 at period 1000 ns with duty cycles 5000 ns (clamped) and 10 ns (kept). -/
theorem set_duty_cycle_clamps_witness :
    ((5000 < 2 ^ 32 ∧ (1000 : Nat) < 5000) ∧
      (pwm_set_duty_cycle axi_regs ⟨fun _ => 0, []⟩
        ⟨1000, 10, 0, ⟨0x44A00000, 160000000⟩⟩ 5000).2.1.duty_cycle_ns = 1000 ∧
      (pwm_set_duty_cycle axi_regs ⟨fun _ => 0, []⟩
        ⟨1000, 10, 0, ⟨0x44A00000, 160000000⟩⟩ 5000).2.2.writes
        = [(0x44A00000, 0x18, 160)]) ∧
    ((10 < 2 ^ 32 ∧ (10 : Nat) ≤ 1000) ∧
      (pwm_set_duty_cycle axi_regs ⟨fun _ => 0, []⟩
        ⟨1000, 0, 0, ⟨0x44A00000, 160000000⟩⟩ 10).2.1.duty_cycle_ns = 10) :=
  ⟨⟨⟨by norm_num, by norm_num⟩,
    (set_duty_cycle_clamps axi_regs ⟨fun _ => 0, []⟩ ⟨1000, 10, 0, ⟨0x44A00000, 160000000⟩⟩
      5000 (by norm_num) (by decide)).1 (by norm_num)⟩,
   ⟨⟨by norm_num, by norm_num⟩,
    ((set_duty_cycle_clamps axi_regs ⟨fun _ => 0, []⟩ ⟨1000, 0, 0, ⟨0x44A00000, 160000000⟩⟩
      10 (by norm_num) (by decide)).2 (by norm_num)).1⟩⟩

/-! ## Pulse generator: the tick conversion -/

theorem pwm_tmp_eq {ref ns : Nat} (href : ref < 2 ^ 32) (hns : ns < 2 ^ 32)
    (hfit : ref / 1000 * ns < 2 ^ 32) : pwm_tmp ref ns = ref / 1000 * ns := by
  unfold pwm_tmp NSEC_PER_USEC
  rw [Nat.mod_eq_of_lt href, Nat.mod_eq_of_lt hns, Nat.mod_eq_of_lt hfit]

theorem pwm_ticks_eq {ref ns : Nat} (href : ref < 2 ^ 32) (hns : ns < 2 ^ 32)
    (hfit : ref / 1000 * ns + 999999 < 2 ^ 32) :
    pwm_ticks ref ns = (ref / 1000 * ns + 999999) / 1000000 := by
  unfold pwm_ticks DIV_ROUND_UP USEC_PER_SEC
  rw [pwm_tmp_eq href hns (by omega)]
  have h : ref / 1000 * ns + 1000000 - 1 = ref / 1000 * ns + 999999 := by omega
  rw [h, Nat.mod_eq_of_lt hfit]

theorem pwm_ticks_mono {ref a b : Nat} (href : ref < 2 ^ 32) (hb : b < 2 ^ 32) (hab : a ≤ b)
    (hfit : ref / 1000 * b + 999999 < 2 ^ 32) : pwm_ticks ref a ≤ pwm_ticks ref b := by
  have hmul : ref / 1000 * a ≤ ref / 1000 * b := Nat.mul_le_mul_left _ hab
  rw [pwm_ticks_eq href (lt_of_le_of_lt hab hb) (by omega), pwm_ticks_eq href hb hfit]
  exact Nat.div_le_div_right (by omega)

/-- Where the 32-bit intermediate has room the tick conversion does not wrap and is
monotonic: for every reference clock and every `ns1 < ns2` (both `uint32_t`) with
`(ref_clock_Hz / 1000) * ns2 + 999999 < 2 ^ 32`, the products for `ns1` and `ns2` are
stored unwrapped, and the tick counts that `pwm_set_period` and `pwm_set_duty_cycle` write
for `ns1` are at most those they write for `ns2`. -/
theorem ticks_monotone_in_range {τ : Type} (B : axi_bus τ) (p : axi_port τ) (desc : pwm_desc)
    (ns1 ns2 : Nat) (href : desc.extra.ref_clock_Hz < 2 ^ 32) (hns : ns2 < 2 ^ 32)
    (h12 : ns1 < ns2) (hfit : desc.extra.ref_clock_Hz / 1000 * ns2 + 999999 < 2 ^ 32) :
    pwm_tmp desc.extra.ref_clock_Hz ns1 = desc.extra.ref_clock_Hz / 1000 * ns1 ∧
    pwm_tmp desc.extra.ref_clock_Hz ns2 = desc.extra.ref_clock_Hz / 1000 * ns2 ∧
    (pwm_set_period B p desc ns1).2.2.writes = p.writes ++
      [(desc.extra.base_addr, AXI_PWMGEN_REG_PULSE_PERIOD,
        pwm_ticks desc.extra.ref_clock_Hz ns1)] ∧
    (pwm_set_period B p desc ns2).2.2.writes = p.writes ++
      [(desc.extra.base_addr, AXI_PWMGEN_REG_PULSE_PERIOD,
        pwm_ticks desc.extra.ref_clock_Hz ns2)] ∧
    pwm_ticks desc.extra.ref_clock_Hz ns1 ≤ pwm_ticks desc.extra.ref_clock_Hz ns2 ∧
    (pwm_set_duty_cycle B p desc ns1).2.2.writes = p.writes ++
      [(desc.extra.base_addr, AXI_PWMGEN_REG_PULSE_WIDTH,
        pwm_ticks desc.extra.ref_clock_Hz (min ns1 desc.period_ns))] ∧
    (pwm_set_duty_cycle B p desc ns2).2.2.writes = p.writes ++
      [(desc.extra.base_addr, AXI_PWMGEN_REG_PULSE_WIDTH,
        pwm_ticks desc.extra.ref_clock_Hz (min ns2 desc.period_ns))] ∧
    pwm_ticks desc.extra.ref_clock_Hz (min ns1 desc.period_ns)
      ≤ pwm_ticks desc.extra.ref_clock_Hz (min ns2 desc.period_ns) := by
  have hns1 : ns1 < 2 ^ 32 := lt_trans h12 hns
  have hmul : desc.extra.ref_clock_Hz / 1000 * ns1 ≤ desc.extra.ref_clock_Hz / 1000 * ns2 :=
    Nat.mul_le_mul_left _ (Nat.le_of_lt h12)
  have hclamp : ∀ ns, ns < 2 ^ 32 →
      (if ns % 2 ^ 32 > desc.period_ns then desc.period_ns else ns % 2 ^ 32)
        = min ns desc.period_ns := by
    intro ns h
    rw [Nat.mod_eq_of_lt h]
    split
    · exact (Nat.min_eq_right (Nat.le_of_lt ‹_›)).symm
    · exact (Nat.min_eq_left (Nat.not_lt.mp ‹_›)).symm
  have hd1 := set_duty_cycle_writes B p desc ns1
  have hd2 := set_duty_cycle_writes B p desc ns2
  rw [hclamp ns1 hns1] at hd1
  rw [hclamp ns2 hns] at hd2
  have hmin2 : min ns2 desc.period_ns ≤ ns2 := Nat.min_le_left _ _
  have hmin12 : min ns1 desc.period_ns ≤ min ns2 desc.period_ns :=
    min_le_min_right _ (Nat.le_of_lt h12)
  have hmulmin : desc.extra.ref_clock_Hz / 1000 * min ns2 desc.period_ns
      ≤ desc.extra.ref_clock_Hz / 1000 * ns2 := Nat.mul_le_mul_left _ hmin2
  exact ⟨pwm_tmp_eq href hns1 (by omega), pwm_tmp_eq href hns (by omega),
    set_period_writes B p desc ns1, set_period_writes B p desc ns2,
    pwm_ticks_mono href hns (Nat.le_of_lt h12) hfit, hd1, hd2,
    pwm_ticks_mono href (lt_of_le_of_lt hmin2 hns) hmin12 (by omega)⟩

/-- The range of `ticks_monotone_in_range` holds the configuration of the project: 160 MHz,
duty cycle 10 ns, period 1000 ns. -/
theorem ticks_monotone_in_range_witness :
    ((160000000 < 2 ^ 32 ∧ 1000 < 2 ^ 32 ∧ 10 < 1000 ∧
        160000000 / 1000 * 1000 + 999999 < 2 ^ 32) ∧
      pwm_ticks 160000000 10 ≤ pwm_ticks 160000000 1000) :=
  ⟨by norm_num,
   (ticks_monotone_in_range axi_regs ⟨fun _ => 0, []⟩ ⟨1000, 10, 0, ⟨0x44A00000, 160000000⟩⟩ 10 1000
     (by norm_num) (by norm_num) (by norm_num) (by norm_num)).2.2.2.2.1⟩

/-- C5 at a failing input. With the reference clock of the project, 160 MHz (below
200 MHz), and `ns1 = 26000 < ns2 = 26844` (both far below 10 seconds), the product
`160000 * 26844` does not fit the 32-bit intermediate, `pwm_set_period` writes 4160 ticks
for `ns1` and 1 tick for `ns2`, and `pwm_set_duty_cycle` (period 30000 ns) does the same:
the conversion overflows and is not monotonic. -/
theorem ticks_overflow_failing_input :
    160000000 ≤ 200000000 ∧ 26000 < 26844 ∧ 26844 ≤ 10 ^ 10 ∧ 26844 < 2 ^ 32 ∧
    2 ^ 32 ≤ 160000000 / 1000 * 26844 ∧
    (pwm_set_period axi_regs ⟨fun _ => 0, []⟩
      ⟨30000, 10, 0, ⟨0x44A00000, 160000000⟩⟩ 26000).2.2.writes
      = [(0x44A00000, 0x14, 4160)] ∧
    (pwm_set_period axi_regs ⟨fun _ => 0, []⟩
      ⟨30000, 10, 0, ⟨0x44A00000, 160000000⟩⟩ 26844).2.2.writes
      = [(0x44A00000, 0x14, 1)] ∧
    (pwm_set_duty_cycle axi_regs ⟨fun _ => 0, []⟩
      ⟨30000, 10, 0, ⟨0x44A00000, 160000000⟩⟩ 26000).2.2.writes
      = [(0x44A00000, 0x18, 4160)] ∧
    (pwm_set_duty_cycle axi_regs ⟨fun _ => 0, []⟩
      ⟨30000, 10, 0, ⟨0x44A00000, 160000000⟩⟩ 26844).2.2.writes
      = [(0x44A00000, 0x18, 1)] ∧
    ¬ (4160 ≤ 1) := by
  decide

theorem ceil_rescale (a : Nat) :
    (1000 * a + 999999999) / 1000000000 = (a + 999999) / 1000000 := by
  omega

/-- C6 (as amended). For every reference clock and every `ns` (both `uint32_t`) with
`(ref_clock_Hz / 1000) * ns + 999999 < 2 ^ 32`, the value `pwm_set_period` writes to the
period register is `ceil((ref_clock_Hz / 1000) * ns / 10^6)`, where `ref_clock_Hz / 1000`
is rounded down; when `ref_clock_Hz` is a multiple of 1000 this is
`ceil(ns * ref_clock_Hz / 10^9)` in exact arithmetic. -/
theorem period_ticks_exact {τ : Type} (B : axi_bus τ) (p : axi_port τ) (desc : pwm_desc)
    (ns : Nat) (href : desc.extra.ref_clock_Hz < 2 ^ 32) (hns : ns < 2 ^ 32)
    (hfit : desc.extra.ref_clock_Hz / 1000 * ns + 999999 < 2 ^ 32) :
    (pwm_set_period B p desc ns).2.2.writes = p.writes ++
      [(desc.extra.base_addr, AXI_PWMGEN_REG_PULSE_PERIOD,
        (desc.extra.ref_clock_Hz / 1000 * ns + 999999) / 1000000)] ∧
    (1000 ∣ desc.extra.ref_clock_Hz →
      (pwm_set_period B p desc ns).2.2.writes = p.writes ++
        [(desc.extra.base_addr, AXI_PWMGEN_REG_PULSE_PERIOD,
          spec_ticks desc.extra.ref_clock_Hz ns)]) := by
  have hw := set_period_writes B p desc ns
  rw [pwm_ticks_eq href hns hfit] at hw
  refine ⟨hw, fun hdvd => ?_⟩
  rw [hw]
  obtain ⟨k, hk⟩ := hdvd
  have hdiv : desc.extra.ref_clock_Hz / 1000 = k := by omega
  have hspec : spec_ticks desc.extra.ref_clock_Hz ns = (k * ns + 999999) / 1000000 := by
    unfold spec_ticks
    rw [hk, ← ceil_rescale (k * ns)]
    have hmul : ns * (1000 * k) = 1000 * (k * ns) := by ring
    rw [hmul]
    norm_num
  rw [hspec, hdiv]

/-- C6 (as amended) at the configuration of the project: 160 MHz and 1000 ns. -/
theorem period_ticks_exact_witness :
    ((160000000 < 2 ^ 32 ∧ 1000 < 2 ^ 32 ∧ 160000000 / 1000 * 1000 + 999999 < 2 ^ 32 ∧
        1000 ∣ 160000000) ∧
      (pwm_set_period axi_regs ⟨fun _ => 0, []⟩
        ⟨0, 0, 0, ⟨0x44A00000, 160000000⟩⟩ 1000).2.2.writes
        = [] ++ [(0x44A00000, AXI_PWMGEN_REG_PULSE_PERIOD, spec_ticks 160000000 1000)]) :=
  ⟨⟨by norm_num, by norm_num, by norm_num, by norm_num⟩,
   (period_ticks_exact axi_regs ⟨fun _ => 0, []⟩ ⟨0, 0, 0, ⟨0x44A00000, 160000000⟩⟩ 1000
     (by norm_num) (by norm_num) (by norm_num)).2 (by norm_num)⟩

/-- C6 (as stated) fails: with `ref_clock_Hz = 160000999` and `ns = 1000` the product
`160000 * 1000` fits 32 bits, `pwm_set_period` writes 160 to the period register, and
`ceil(1000 * 160000999 / 10^9)` is 161. -/
theorem period_ticks_exact_counterexample :
    160000999 / 1000 * 1000 < 2 ^ 32 ∧
    (pwm_set_period axi_regs ⟨fun _ => 0, []⟩
      ⟨0, 0, 0, ⟨0x44A00000, 160000999⟩⟩ 1000).2.2.writes = [(0x44A00000, 0x14, 160)] ∧
    spec_ticks 160000999 1000 = 161 := by
  decide

/-! ## Device bring-up -/

/-- Once the scratch-pad write has succeeded, `ad469x_init` returns the status of that
write and stores a handle, whatever the masked writes, the width and speed switches and
`pwm_init` do afterwards. -/
theorem init_after_scratch_write {σ τ : Type} (T : spi_transport σ) (B : axi_bus τ)
    (h : ad469x_regmap) (env : init_env) (bus : σ) (axi : axi_port τ)
    (init_param : ad469x_init_param)
    (hmalloc : env.malloc_ok = true) (hclk : env.clkgen_init = SUCCESS)
    (hrate : env.clkgen_set_rate = SUCCESS)
    (hgpio : IS_ERR_VALUE (ad469x_init_gpio env.gpio init_param.gpio_resetn) = false)
    (hspi : ¬ env.spi_init < 0)
    (hwrite : ¬ (ad469x_spi_reg_write T
      (ad469x_spi_reg_read T
        (spi_engine_set_speed env.speed_reg_ok
          (spi_engine_set_transfer_width env.width_reg_ok
            (spi_open bus init_param.spi_max_speed_hz) 8)
          init_param.reg_access_speed) h.REG_SCRATCH_PAD).2.2
      h.REG_SCRATCH_PAD 0xEA).1 < 0) :
    (ad469x_init T B h env bus axi init_param).ret =
      (ad469x_spi_reg_write T
        (ad469x_spi_reg_read T
          (spi_engine_set_speed env.speed_reg_ok
            (spi_engine_set_transfer_width env.width_reg_ok
              (spi_open bus init_param.spi_max_speed_hz) 8)
            init_param.reg_access_speed) h.REG_SCRATCH_PAD).2.2
        h.REG_SCRATCH_PAD 0xEA).1 ∧
    (ad469x_init T B h env bus axi init_param).device.isSome = true := by
  unfold ad469x_init
  simp only [hmalloc, hclk, hrate, hgpio, hspi, hwrite, Bool.not_true, Bool.false_eq_true,
    if_false, ne_eq, not_true_eq_false, Option.isSome_some, and_self]

/-- C3 at failing inputs. (1) Every collaborator succeeds except the register bus of the
pulse generator, whose first write fails: `pwm_init` returns `FAILURE`, yet `ad469x_init`
returns 0 and stores a handle, whose pulse-generator descriptor was never written. (2) The
serial transport fails every exchange after the scratch-pad write, so that the
busy-signal, channel-sequencing and interface-mode masked writes all fail: `ad469x_init`
again returns 0 and stores a handle. (3) The clock generator fails while the local `ret`
happens to hold 0: no handle is stored, but the status returned is 0. -/
theorem init_failing_inputs :
    ((pwm_init axi_scripted ⟨[(-1, 0)], []⟩
        (some (fmcz_init_param 0x44A00000 0 0).pwmgen_init) true true).1 = FAILURE ∧
      (ad469x_init regfile axi_scripted ad469x_h (env_all_ok 0) (fun _ => 0)
        ⟨[(-1, 0)], []⟩ (fmcz_init_param 0x44A00000 0 0)).ret = 0 ∧
      (ad469x_init regfile axi_scripted ad469x_h (env_all_ok 0) (fun _ => 0)
        ⟨[(-1, 0)], []⟩ (fmcz_init_param 0x44A00000 0 0)).device.isSome = true ∧
      (ad469x_init regfile axi_scripted ad469x_h (env_all_ok 0) (fun _ => 0)
        ⟨[(-1, 0)], []⟩ (fmcz_init_param 0x44A00000 0 0)).device.map (fun d => d.pwm_desc)
        = some none) ∧
    ((ad469x_set_busy scripted ad469x_h
        (spi_open (List.replicate 4 (-1, [])) 0) ad469x_h.busy_gp0).1 = -1 ∧
      (ad469x_set_channel_sequence scripted ad469x_h
        (spi_open (List.replicate 4 (-1, [])) 0) .AD469x_single_cycle 0).1 = -1 ∧
      (ad469x_set_interface_mode scripted ad469x_h
        (spi_open (List.replicate 4 (-1, [])) 0) ad469x_h.IF_CONVERSION_MODE).1 = -1 ∧
      (ad469x_init scripted axi_regs ad469x_h (env_all_ok 0)
        ([(0, []), (0, []), (0, [])] ++ List.replicate 10 (-1, []))
        ⟨fun _ => 0, []⟩ (fmcz_init_param 0x44A00000 0 0)).ret = 0 ∧
      (ad469x_init scripted axi_regs ad469x_h (env_all_ok 0)
        ([(0, []), (0, []), (0, [])] ++ List.replicate 10 (-1, []))
        ⟨fun _ => 0, []⟩ (fmcz_init_param 0x44A00000 0 0)).device.isSome = true) ∧
    ((ad469x_init regfile axi_regs ad469x_h
        { env_all_ok 0 with clkgen_init := -1 } (fun _ => 0)
        ⟨fun _ => 0, []⟩ (fmcz_init_param 0x44A00000 0 0)).ret = 0 ∧
      (ad469x_init regfile axi_regs ad469x_h
        { env_all_ok 0 with clkgen_init := -1 } (fun _ => 0)
        ⟨fun _ => 0, []⟩ (fmcz_init_param 0x44A00000 0 0)).device.isNone = true) := by
  decide

/-! ## Acquisition loop -/

theorem loop_decode_length (words : Nat → Nat) : (loop_decode words).length = 500 := by
  simp [loop_decode, AD469x_EVB_SAMPLE_NO]

theorem loop_decode_get (words : Nat → Nat) (i : Nat) (hi : i < 500) :
    (loop_decode words)[i]? = some (i, (words i % 2 ^ 32) &&& 0xFFFFF) := by
  have h : i < AD469x_EVB_SAMPLE_NO / 2 := by
    simpa [AD469x_EVB_SAMPLE_NO] using hi
  simp [loop_decode, List.getElem?_map, List.getElem?_range h]

theorem loop_decode_bound (words : Nat → Nat) :
    ∀ x ∈ loop_decode words, x.2 ≤ 1048575 := by
  intro x hx
  simp only [loop_decode, List.mem_map, List.mem_range] at hx
  obtain ⟨i, _, rfl⟩ := hx
  have h : (words i % 2 ^ 32) &&& 0xFFFFF < 2 ^ 20 :=
    Nat.and_lt_two_pow _ (by norm_num)
  show (words i % 2 ^ 32) &&& 0xFFFFF ≤ 1048575
  omega

/-- C8 (as amended). In one pass of the acquisition loop with 1000 repetitions
(`AD469x_EVB_SAMPLE_NO`) and a successful transfer, exactly 1000 / 2 = 500 values are
decoded: the `i`-th, for `i < 500`, is the `i`-th 32-bit word of the destination buffer
masked to 20 bits, so every decoded value lies in [0, 1048575]. -/
theorem decoded_samples {ρ : Type} (ch_sel : Nat → Nat) (E : offload_engine ρ)
    (st : loop_state ρ) (hrun : st.exit = none)
    (hok : (E.transfer st.engine (loop_command ch_sel st.j) AD469x_EVB_SAMPLE_NO).1
      = SUCCESS) :
    (loop_body ch_sel E st).transfers
      = st.transfers ++ [(loop_command ch_sel st.j, 1000)] ∧
    (loop_body ch_sel E st).printed = st.printed ++
      loop_decode (E.transfer st.engine (loop_command ch_sel st.j) AD469x_EVB_SAMPLE_NO).2.1 ∧
    (loop_decode
      (E.transfer st.engine (loop_command ch_sel st.j) AD469x_EVB_SAMPLE_NO).2.1).length
      = 500 ∧
    (∀ i, i < 500 →
      (loop_decode
        (E.transfer st.engine (loop_command ch_sel st.j) AD469x_EVB_SAMPLE_NO).2.1)[i]?
      = some (i,
          ((E.transfer st.engine (loop_command ch_sel st.j) AD469x_EVB_SAMPLE_NO).2.1 i
            % 2 ^ 32) &&& 0xFFFFF)) ∧
    (∀ x ∈ loop_decode
        (E.transfer st.engine (loop_command ch_sel st.j) AD469x_EVB_SAMPLE_NO).2.1,
      x.2 ≤ 1048575) := by
  refine ⟨?_, ?_, loop_decode_length _, fun i hi => loop_decode_get _ i hi,
    loop_decode_bound _⟩
  · unfold loop_body
    simp only [hrun]
    split <;> rfl
  · unfold loop_body
    simp only [hrun, hok, ne_eq, not_true_eq_false, if_false]

/-- C8 (as amended) at the first pass of the loop over an engine that delivers words with
bits set above bit 19. -/
theorem decoded_samples_witness :
    (((loop_entry ()).exit = none ∧ (0 : Int) = SUCCESS) ∧
      (loop_body AD469x_CMD_CONFIG_CH_SEL (offload_const (fun i => 0xABC00000 + i))
        (loop_entry ())).printed
        = [] ++ loop_decode (fun i => 0xABC00000 + i)) :=
  ⟨⟨rfl, rfl⟩,
   (decoded_samples AD469x_CMD_CONFIG_CH_SEL (offload_const (fun i => 0xABC00000 + i))
     (loop_entry ()) rfl rfl).2.1⟩

/-- C8 (as stated) fails: after a successful transfer of 1000 repetitions, one pass of the
loop has decoded 500 values, not 1000. -/
theorem decoded_samples_counterexample :
    (loop_body AD469x_CMD_CONFIG_CH_SEL (offload_const (fun i => i))
      (loop_entry ())).transfers = [(0x8800, 1000)] ∧
    (loop_body AD469x_CMD_CONFIG_CH_SEL (offload_const (fun i => i))
      (loop_entry ())).exit = none ∧
    (loop_body AD469x_CMD_CONFIG_CH_SEL (offload_const (fun i => i))
      (loop_entry ())).printed.length = 500 ∧
    (loop_body AD469x_CMD_CONFIG_CH_SEL (offload_const (fun i => i))
      (loop_entry ())).printed.length ≠ 1000 := by
  have hp : (loop_body AD469x_CMD_CONFIG_CH_SEL (offload_const (fun i => i))
      (loop_entry ())).printed = [] ++ loop_decode (fun i => i) := rfl
  rw [hp, List.nil_append, loop_decode_length]
  exact ⟨by decide, rfl, rfl, by decide⟩

/-! ## Channel alternation -/

/-- The parameter word depends on the parity of the pass only, so the wrap of the
`uint32_t` counter does not disturb it. -/
theorem loop_command_wrap (ch_sel : Nat → Nat) (k : Nat) :
    loop_command ch_sel (k % 2 ^ 32) = loop_command ch_sel k := by
  unfold loop_command
  have h : k % 2 ^ 32 % 2 = k % 2 := by omega
  rw [h]

theorem loop_command_eq (ch_sel : Nat → Nat) (k : Nat) :
    loop_command ch_sel k = (ch_sel (1 - k % 2) <<< 8) % 2 ^ 32 := by
  unfold loop_command
  rcases Nat.mod_two_eq_zero_or_one k with h | h <;> simp [h]

theorem loop_inv_entry {ρ : Type} (ch_sel : Nat → Nat) (e : ρ) :
    loop_inv ch_sel (loop_entry e) := by
  refine ⟨fun _ => rfl, fun k hk => ?_⟩
  exact absurd hk (Nat.not_lt_zero k)

theorem loop_inv_body {ρ : Type} (ch_sel : Nat → Nat) (E : offload_engine ρ)
    (st : loop_state ρ) (hinv : loop_inv ch_sel st) :
    loop_inv ch_sel (loop_body ch_sel E st) := by
  cases hexit : st.exit with
  | some r =>
    have hb : loop_body ch_sel E st = st := by
      unfold loop_body
      simp only [hexit]
    rw [hb]
    exact hinv
  | none =>
    have hj := hinv.1 hexit
    have htr : (loop_body ch_sel E st).transfers
        = st.transfers ++ [(loop_command ch_sel st.j, AD469x_EVB_SAMPLE_NO)] := by
      unfold loop_body
      simp only [hexit]
      split <;> rfl
    have hjn : (loop_body ch_sel E st).j = (st.j + 1) % 2 ^ 32 := by
      unfold loop_body
      simp only [hexit]
      split <;> rfl
    refine ⟨fun _ => ?_, fun k hk => ?_⟩
    · rw [hjn, htr, hj, List.length_append, List.length_singleton]
      omega
    · rw [htr] at hk ⊢
      rw [List.length_append, List.length_singleton] at hk
      by_cases hlt : k < st.transfers.length
      · rw [List.getElem?_append_left hlt]
        exact hinv.2 k hlt
      · have hk2 : k = st.transfers.length := by omega
        subst hk2
        rw [List.getElem?_append_right (Nat.le_refl _), Nat.sub_self, hj,
          loop_command_wrap]
        rfl

theorem loop_inv_main {ρ : Type} (ch_sel : Nat → Nat) (E : offload_engine ρ) (n : Nat) :
    ∀ st : loop_state ρ, loop_inv ch_sel st → loop_inv ch_sel (main_loop ch_sel E n st) := by
  induction n with
  | zero => intro st h; exact h
  | succ n ih =>
    intro st h
    exact ih _ (loop_inv_body ch_sel E st h)

/-- While every transfer succeeds, `n` passes of the loop trigger `n` transfers and `main`
does not return. -/
theorem main_loop_length {ρ : Type} (ch_sel : Nat → Nat) (E : offload_engine ρ)
    (hE : ∀ s w r, (E.transfer s w r).1 = SUCCESS) (n : Nat) :
    ∀ st : loop_state ρ, st.exit = none →
      (main_loop ch_sel E n st).exit = none ∧
      (main_loop ch_sel E n st).transfers.length = st.transfers.length + n := by
  induction n with
  | zero => intro st h; exact ⟨h, rfl⟩
  | succ n ih =>
    intro st h
    have hb : (loop_body ch_sel E st).exit = none ∧
        (loop_body ch_sel E st).transfers.length = st.transfers.length + 1 := by
      unfold loop_body
      simp only [h, hE, ne_eq, not_true_eq_false, if_false, List.length_append,
        List.length_singleton, and_self]
    obtain ⟨h1, h2⟩ := ih _ hb.1
    refine ⟨h1, ?_⟩
    show (main_loop ch_sel E n (loop_body ch_sel E st)).transfers.length = _
    rw [h2, hb.2]
    omega

/-- C9 (as amended). For every pass index `k` (counted from 0) that the loop reaches, the
parameter word programmed before the transfer of pass `k` is the channel-select word of
channel `1 - k mod 2`: the first pass selects channel 1, the second channel 0, and two
consecutive passes program different parameter words whenever the words of channel 0 and
channel 1 differ. While every transfer succeeds, `n` passes reach the indices below `n`. -/
theorem channel_alternation {ρ : Type} (ch_sel : Nat → Nat) (E : offload_engine ρ) (e : ρ)
    (n : Nat) :
    (∀ k, k < (main_loop ch_sel E n (loop_entry e)).transfers.length →
      (main_loop ch_sel E n (loop_entry e)).transfers[k]?
        = some ((ch_sel (1 - k % 2) <<< 8) % 2 ^ 32, 1000)) ∧
    (∀ k, k + 1 < (main_loop ch_sel E n (loop_entry e)).transfers.length →
      (ch_sel 0 <<< 8) % 2 ^ 32 ≠ (ch_sel 1 <<< 8) % 2 ^ 32 →
      (main_loop ch_sel E n (loop_entry e)).transfers[k]?
        ≠ (main_loop ch_sel E n (loop_entry e)).transfers[k + 1]?) ∧
    ((∀ s w r, (E.transfer s w r).1 = SUCCESS) →
      (main_loop ch_sel E n (loop_entry e)).transfers.length = n) := by
  have hinv := loop_inv_main ch_sel E n (loop_entry e) (loop_inv_entry ch_sel e)
  have hget : ∀ k, k < (main_loop ch_sel E n (loop_entry e)).transfers.length →
      (main_loop ch_sel E n (loop_entry e)).transfers[k]?
        = some ((ch_sel (1 - k % 2) <<< 8) % 2 ^ 32, 1000) := by
    intro k hk
    rw [hinv.2 k hk, loop_command_eq]
    rfl
  refine ⟨hget, fun k hk hne heq => ?_, fun hE => ?_⟩
  · rw [hget k (by omega), hget (k + 1) hk] at heq
    have hw : (ch_sel (1 - k % 2) <<< 8) % 2 ^ 32
        = (ch_sel (1 - (k + 1) % 2) <<< 8) % 2 ^ 32 := by
      have := Option.some.inj heq
      exact (Prod.mk.inj this).1
    rcases Nat.mod_two_eq_zero_or_one k with h | h
    · have h1 : (k + 1) % 2 = 1 := by omega
      rw [h, h1] at hw
      exact hne hw.symm
    · have h1 : (k + 1) % 2 = 0 := by omega
      rw [h, h1] at hw
      exact hne hw
  · have := (main_loop_length ch_sel E hE n (loop_entry e) rfl).2
    rw [this]
    show 0 + n = n
    omega

/-- C9 (as amended) at the first two passes of the loop, with a macro that gives the two
channels different words. -/
theorem channel_alternation_witness :
    ((0 + 1 < (main_loop AD469x_CMD_CONFIG_CH_SEL (offload_const (fun _ => 0)) 2
          (loop_entry ())).transfers.length ∧
        (AD469x_CMD_CONFIG_CH_SEL 0 <<< 8) % 2 ^ 32
          ≠ (AD469x_CMD_CONFIG_CH_SEL 1 <<< 8) % 2 ^ 32) ∧
      (main_loop AD469x_CMD_CONFIG_CH_SEL (offload_const (fun _ => 0)) 2
          (loop_entry ())).transfers[0]?
        ≠ (main_loop AD469x_CMD_CONFIG_CH_SEL (offload_const (fun _ => 0)) 2
          (loop_entry ())).transfers[0 + 1]?) :=
  ⟨⟨by decide, by decide⟩,
   (channel_alternation AD469x_CMD_CONFIG_CH_SEL (offload_const (fun _ => 0)) () 2).2.1 0
     (by decide) (by decide)⟩

/-- C9 (as stated) fails: the first pass (index 0) programs the channel-select word of
channel 1, not of channel `0 mod 2 = 0`, and the second pass programs that of channel 0. -/
theorem channel_alternation_counterexample :
    (main_loop AD469x_CMD_CONFIG_CH_SEL (offload_const (fun _ => 0)) 2
      (loop_entry ())).transfers
      = [((AD469x_CMD_CONFIG_CH_SEL 1 <<< 8) % 2 ^ 32, 1000),
         ((AD469x_CMD_CONFIG_CH_SEL 0 <<< 8) % 2 ^ 32, 1000)] ∧
    (main_loop AD469x_CMD_CONFIG_CH_SEL (offload_const (fun _ => 0)) 2
      (loop_entry ())).transfers[0]?
      ≠ some ((AD469x_CMD_CONFIG_CH_SEL (0 % 2) <<< 8) % 2 ^ 32, 1000) := by
  decide

/-! ## The frame buffer of a register write -/

/-- For every address and value, the third store of `ad469x_spi_reg_write` goes to index 2
of a buffer declared with two elements, and the exchange is asked for three bytes, one
more than the buffer holds. The two stores before it are in bounds. -/
theorem reg_write_stores_bounds (reg_addr reg_data : Nat) :
    ad469x_spi_reg_write_stores reg_addr reg_data
      = [(0, AD469x_REG_WRITE (reg_addr >>> 8)), (1, 0xFF &&& reg_addr), (2, reg_data)] ∧
    (ad469x_spi_reg_write_stores reg_addr reg_data).map
        (fun s => decide (s.1 < ad469x_spi_reg_write_buf_len))
      = [true, true, false] ∧
    ad469x_spi_reg_write_len = ad469x_spi_reg_write_buf_len + 1 := by
  refine ⟨rfl, ?_, rfl⟩
  simp [ad469x_spi_reg_write_stores, ad469x_spi_reg_write_buf_len]

/-- With the frame buffer laid out in contiguous memory, the bytes `ad469x_spi_reg_write`
hands to the exchange are the write opcode of the high address byte, the low address byte
and the value. -/
theorem reg_write_frame {σ : Type} (T : spi_transport σ) (dev : spi_desc σ)
    (reg_addr reg_data : Nat) :
    (ad469x_spi_reg_write T dev reg_addr reg_data).2.frames = dev.frames ++
      [[AD469x_REG_WRITE (reg_addr >>> 8) % 256, (0xFF &&& reg_addr) % 256,
        reg_data % 256]] := by
  simp [ad469x_spi_reg_write, ad469x_spi_reg_write_stores, ad469x_spi_reg_write_len,
    spi_write_and_read, store_byte]

/-- C13 at a failing input. For the scratch-pad write of the bring-up,
`ad469x_spi_reg_write(dev, 0x00A, 0xEA)`, the stores go to indices 0, 1 and 2 of a frame
buffer declared with 2 elements: the store of the value is out of bounds, and the
exchange is handed 3 bytes from a 2-byte buffer. -/
theorem reg_write_out_of_bounds :
    ad469x_spi_reg_write_buf_len = 2 ∧
    ad469x_spi_reg_write_stores 0x00A 0xEA = [(0, 0x00), (1, 0x0A), (2, 0xEA)] ∧
    (2, 0xEA) ∈ ad469x_spi_reg_write_stores 0x00A 0xEA ∧
    ¬ (∀ s ∈ ad469x_spi_reg_write_stores 0x00A 0xEA, s.1 < ad469x_spi_reg_write_buf_len) ∧
    ad469x_spi_reg_write_buf_len < ad469x_spi_reg_write_len := by
  decide

/-! ## The invariant of the pulse-generator descriptor -/

/-- A successful `pwm_set_duty_cycle` leaves a duty cycle that is at most the period,
whatever the descriptor held before. -/
theorem set_duty_cycle_success_le {τ : Type} (B : axi_bus τ) (p : axi_port τ)
    (desc : pwm_desc) (ns : Nat) (hok : (pwm_set_duty_cycle B p desc ns).1 = SUCCESS) :
    (pwm_set_duty_cycle B p desc ns).2.1.duty_cycle_ns
      ≤ (pwm_set_duty_cycle B p desc ns).2.1.period_ns := by
  have hw : (axi_io_write B p desc.extra.base_addr AXI_PWMGEN_REG_PULSE_WIDTH
      (pwm_ticks desc.extra.ref_clock_Hz
        (if ns % 2 ^ 32 > desc.period_ns then desc.period_ns else ns % 2 ^ 32))).1
      = SUCCESS := by
    by_contra h
    rw [set_duty_cycle_err B p desc ns h] at hok
    exact h hok
  rw [set_duty_cycle_ok B p desc ns hw]
  show (if ns % 2 ^ 32 > desc.period_ns then desc.period_ns else ns % 2 ^ 32)
    ≤ desc.period_ns
  split <;> omega

/-- The operations that keep `duty_cycle_ns <= period_ns`: `pwm_set_duty_cycle` (whether
the write succeeds or fails), `pwm_set_period` when the write fails or the new period is
not below the stored duty cycle, and a successful `pwm_init`, which establishes it.
`pwm_enable` and `pwm_disable` do not touch the descriptor. -/
theorem pwm_invariant_where_kept {τ : Type} (B : axi_bus τ) (p : axi_port τ) :
    (∀ (desc : pwm_desc) (ns : Nat), desc.duty_cycle_ns ≤ desc.period_ns →
      (pwm_set_duty_cycle B p desc ns).2.1.duty_cycle_ns
        ≤ (pwm_set_duty_cycle B p desc ns).2.1.period_ns) ∧
    (∀ (desc : pwm_desc) (ns : Nat), desc.duty_cycle_ns ≤ desc.period_ns →
      ((pwm_set_period B p desc ns).1 ≠ SUCCESS ∨ desc.duty_cycle_ns ≤ ns % 2 ^ 32) →
      (pwm_set_period B p desc ns).2.1.duty_cycle_ns
        ≤ (pwm_set_period B p desc ns).2.1.period_ns) ∧
    (∀ (param : Option pwm_init_param) (c1 c2 : Bool) (desc : pwm_desc),
      (pwm_init B p param c1 c2).2.1 = some desc →
      desc.duty_cycle_ns ≤ desc.period_ns) := by
  refine ⟨fun desc ns hinv => ?_, fun desc ns hinv hcase => ?_, ?_⟩
  · by_cases h : (axi_io_write B p desc.extra.base_addr AXI_PWMGEN_REG_PULSE_WIDTH
        (pwm_ticks desc.extra.ref_clock_Hz
          (if ns % 2 ^ 32 > desc.period_ns then desc.period_ns else ns % 2 ^ 32))).1
        = SUCCESS
    · rw [set_duty_cycle_ok B p desc ns h]
      show (if ns % 2 ^ 32 > desc.period_ns then desc.period_ns else ns % 2 ^ 32)
        ≤ desc.period_ns
      split <;> omega
    · rw [set_duty_cycle_err B p desc ns h]
      exact hinv
  · by_cases h : (axi_io_write B p desc.extra.base_addr AXI_PWMGEN_REG_PULSE_PERIOD
        (pwm_ticks desc.extra.ref_clock_Hz ns)).1 = SUCCESS
    · rw [set_period_ok B p desc ns h] at hcase ⊢
      rcases hcase with hc | hc
      · exact absurd rfl hc
      · exact hc
    · rw [set_period_err B p desc ns h]
      exact hinv
  · intro param c1 c2 desc hsome
    cases param with
    | none => exact absurd hsome (by simp [pwm_init])
    | some param =>
      simp only [pwm_init] at hsome
      split_ifs at hsome with h1 h2 h3 h4 h5 h6 h7 h8
      have hd := Option.some.inj hsome
      rw [← hd]
      exact set_duty_cycle_success_le B _ _ _ (not_not.mp h7)

/-- C12 at a failing input. On a fault-free register bus `pwm_init` with period 1000 ns
and duty cycle 500 ns succeeds and returns a descriptor with `duty_cycle_ns <= period_ns`;
`pwm_set_period(desc, 100)` on that descriptor then succeeds and leaves period 100 ns with
duty cycle 500 ns: the invariant is broken. -/
theorem set_period_breaks_invariant :
    (pwm_init axi_regs ⟨fun _ => AXI_PWMGEN_TEST_DATA, []⟩
      (some ⟨1000, 500, 0, ⟨0x44A00000, 160000000⟩⟩) true true).1 = SUCCESS ∧
    (pwm_init axi_regs ⟨fun _ => AXI_PWMGEN_TEST_DATA, []⟩
      (some ⟨1000, 500, 0, ⟨0x44A00000, 160000000⟩⟩) true true).2.1
      = some ⟨1000, 500, 0, ⟨0x44A00000, 160000000⟩⟩ ∧
    (500 : Nat) ≤ 1000 ∧
    (pwm_set_period axi_regs ⟨fun _ => 0, []⟩
      ⟨1000, 500, 0, ⟨0x44A00000, 160000000⟩⟩ 100).1 = SUCCESS ∧
    (pwm_set_period axi_regs ⟨fun _ => 0, []⟩
      ⟨1000, 500, 0, ⟨0x44A00000, 160000000⟩⟩ 100).2.1
      = ⟨100, 500, 0, ⟨0x44A00000, 160000000⟩⟩ ∧
    ¬ ((pwm_set_period axi_regs ⟨fun _ => 0, []⟩
      ⟨1000, 500, 0, ⟨0x44A00000, 160000000⟩⟩ 100).2.1.duty_cycle_ns
      ≤ (pwm_set_period axi_regs ⟨fun _ => 0, []⟩
      ⟨1000, 500, 0, ⟨0x44A00000, 160000000⟩⟩ 100).2.1.period_ns) := by
  decide

/-! ## The scratch-pad self-test of the bring-up -/

/-- Over a scripted transport the handle after `ad469x_spi_reg_read` does not depend on
what the exchange answered. -/
theorem reg_read_scripted_handle (dev0 : spi_desc (List (Int × List Nat)))
    (e : Int × List Nat) (rest : List (Int × List Nat)) (reg_addr : Nat) :
    (ad469x_spi_reg_read scripted { dev0 with state := e :: rest } reg_addr).2.2 =
      { dev0 with
        state := rest,
        frames := dev0.frames ++
          [[AD469x_REG_READ (reg_addr >>> 8) % 256, (0xFF &&& reg_addr) % 256, 0xFF]] } := by
  simp [ad469x_spi_reg_read, spi_write_and_read, store_byte, scripted]

/-- The outcome of `ad469x_init` does not depend on the scratch-pad readback: over a
transport that answers the first three exchanges (scratch-pad read, scratch-pad write,
scratch-pad readback) from a script, any two answers to the readback, in status and in
bytes, give the same status, the same handle, the same printed lines and the same register
bus. -/
theorem init_readback_ignored {τ : Type} (B : axi_bus τ) (h : ad469x_regmap) (env : init_env)
    (axi : axi_port τ) (init_param : ad469x_init_param) (e0 e1 : Int × List Nat)
    (readback readback2 : Int × List Nat) (rest : List (Int × List Nat)) :
    ad469x_init scripted B h env (e0 :: e1 :: readback :: rest) axi init_param =
      ad469x_init scripted B h env (e0 :: e1 :: readback2 :: rest) axi init_param := by
  unfold ad469x_init
  cases env.width_reg_ok <;> cases env.speed_reg_ok <;>
    simp [spi_engine_set_transfer_width, spi_engine_set_speed, spi_open,
      ad469x_spi_reg_read, ad469x_spi_reg_write, ad469x_spi_reg_write_stores,
      ad469x_spi_reg_write_len, spi_write_and_read, store_byte, scripted]

/-- C11 at a failing input. The scratch-pad write of 0xEA succeeds and the readback
exchange delivers 0x00 to the driver in one run and 0xEA in another, every other
collaborator succeeding. In both runs `ad469x_init` goes on to the end, returns 0 and
stores a handle (the leniency holds), but the two outcomes are equal in every part:
status, handle, printed lines and register bus. The mismatch is not reported. -/
theorem init_self_test_unobserved :
    (ad469x_spi_reg_read scripted (spi_open [(0, [0, 0x00, 0])] 0)
      ad469x_h.REG_SCRATCH_PAD).2.1 = 0x00 ∧
    (ad469x_spi_reg_read scripted (spi_open [(0, [0, 0xEA, 0])] 0)
      ad469x_h.REG_SCRATCH_PAD).2.1 = 0xEA ∧
    ad469x_init scripted axi_regs ad469x_h (env_all_ok 0)
        [(0, []), (0, []), (0, [0, 0x00, 0])]
        ⟨fun _ => AXI_PWMGEN_TEST_DATA, []⟩ (fmcz_init_param 0x44A00000 0 0)
      = ad469x_init scripted axi_regs ad469x_h (env_all_ok 0)
        [(0, []), (0, []), (0, [0, 0xEA, 0])]
        ⟨fun _ => AXI_PWMGEN_TEST_DATA, []⟩ (fmcz_init_param 0x44A00000 0 0) ∧
    (ad469x_init scripted axi_regs ad469x_h (env_all_ok 0)
        [(0, []), (0, []), (0, [0, 0x00, 0])]
        ⟨fun _ => AXI_PWMGEN_TEST_DATA, []⟩ (fmcz_init_param 0x44A00000 0 0)).ret = 0 ∧
    (ad469x_init scripted axi_regs ad469x_h (env_all_ok 0)
        [(0, []), (0, []), (0, [0, 0x00, 0])]
        ⟨fun _ => AXI_PWMGEN_TEST_DATA, []⟩ (fmcz_init_param 0x44A00000 0 0)).log
      = [init_message.clock_rate 160000000] ∧
    (ad469x_init scripted axi_regs ad469x_h (env_all_ok 0)
        [(0, []), (0, []), (0, [0, 0x00, 0])]
        ⟨fun _ => AXI_PWMGEN_TEST_DATA, []⟩ (fmcz_init_param 0x44A00000 0 0)).device.map
        (fun d => (d.spi_desc.frames.length, d.pwm_desc))
      = some (13, some ⟨1000, 10, 0, ⟨0x44A00000, 160000000⟩⟩) :=
  ⟨by decide, by decide,
   init_readback_ignored axi_regs ad469x_h (env_all_ok 0) _ _ _ _ _ _ [],
   by decide, by decide, by decide⟩

end AD469x
